import Mathlib

/-!
Verification of the HID++ protocol engine of the juhradial-mx daemon
(src/daemon/src/hidpp.rs), as a shallow embedding in Lean.

Machine integers are modelled as `Nat` with explicit `% 256` / `% 2^16`
where the Rust u8/u16 arithmetic can wrap; device I/O (reads from the
hidraw channel, write success) is modelled by explicit oracle parameters;
wall-clock time (`SystemTime::now` in milliseconds) is passed in as an
explicit `now : Nat` argument.
-/

namespace JuhRadial

/-! ## Error type (hidpp.rs, `HapticError`)

`IoError` carries a `std::io::Error` payload in the source; the payload is
opaque to all control flow (only matched on the variant), so it is dropped
here.  `ProtocolError`/`UnsupportedDevice`/`PermissionDenied` are kept for
completeness of the taxonomy. -/

inductive HapticError where
  | DeviceNotFound
  | PermissionDenied
  | UnsupportedDevice
  | NotSupported
  | CommunicationError
  | IoError
  | ProtocolError (msg : String)
  | SafetyViolation (feature_id : Nat) (reason : String)
deriving DecidableEq

/-! ## Feature Safety Catalog (hidpp.rs, modules `features`,
`blocklisted_features`, `allowed_features`) -/

namespace features

def I_ROOT : Nat := 0x0000
def I_FEATURE_SET : Nat := 0x0001
def DEVICE_NAME : Nat := 0x0005
def BATTERY_STATUS : Nat := 0x1000
def LED_CONTROL : Nat := 0x1300
def FORCE_FEEDBACK : Nat := 0x8123
def MX_MASTER_4_HAPTIC : Nat := 0x19B0
def MX4_HAPTIC_ALT : Nat := 0x0B4E
def ADJUSTABLE_DPI : Nat := 0x2201

end features

namespace blocklisted_features

def SPECIAL_KEYS : Nat := 0x1B04
def REPORT_RATE : Nat := 0x8060
def ONBOARD_PROFILES : Nat := 0x8100
def MODE_STATUS : Nat := 0x8090
def MOUSE_BUTTON_SPY : Nat := 0x8110
def PERSISTENT_REMAPPABLE_ACTION : Nat := 0x1BC0
def HOST_INFO : Nat := 0x1815

/-- `blocklisted_features::is_blocklisted` (hidpp.rs:112): the `matches!`
over the seven blocklisted identifiers. -/
def is_blocklisted (feature_id : Nat) : Bool :=
  feature_id == SPECIAL_KEYS
    || feature_id == REPORT_RATE
    || feature_id == ONBOARD_PROFILES
    || feature_id == MODE_STATUS
    || feature_id == MOUSE_BUTTON_SPY
    || feature_id == PERSISTENT_REMAPPABLE_ACTION
    || feature_id == HOST_INFO

/-- `blocklisted_features::blocklist_reason` (hidpp.rs:126). -/
def blocklist_reason (feature_id : Nat) : Option String :=
  if feature_id = SPECIAL_KEYS then some "Persistent button remapping"
  else if feature_id = REPORT_RATE then some "May persist report rate settings"
  else if feature_id = ONBOARD_PROFILES then some "Persistent profile storage"
  else if feature_id = MODE_STATUS then some "Profile switching may persist"
  else if feature_id = MOUSE_BUTTON_SPY then some "Profile modification"
  else if feature_id = PERSISTENT_REMAPPABLE_ACTION then some "Persistent key remapping"
  else if feature_id = HOST_INFO then some "Device pairing persistence"
  else none

end blocklisted_features

namespace allowed_features

/-- `allowed_features::SAFELIST` (hidpp.rs:145). -/
def SAFELIST : List Nat :=
  [features.I_ROOT, features.I_FEATURE_SET, features.DEVICE_NAME,
   features.BATTERY_STATUS, features.LED_CONTROL, features.FORCE_FEEDBACK,
   features.MX_MASTER_4_HAPTIC, features.MX4_HAPTIC_ALT, features.ADJUSTABLE_DPI]

/-- `allowed_features::is_allowed` (hidpp.rs:158). -/
def is_allowed (feature_id : Nat) : Bool :=
  SAFELIST.contains feature_id

end allowed_features

/-- `verify_feature_safety` (hidpp.rs:179).  The branch for identifiers that
are neither blocklisted nor allowed only emits a log warning in the source
and still returns `Ok(())`. -/
def verify_feature_safety (feature_id : Nat) : Except HapticError Unit :=
  if blocklisted_features.is_blocklisted feature_id then
    .error (.SafetyViolation feature_id
      ((blocklisted_features.blocklist_reason feature_id).getD "Unknown persistent feature"))
  else
    .ok ()

/-- The seven blocklisted identifiers, as a list (for membership statements). -/
def blockedIds : List Nat := [0x1B04, 0x8060, 0x8100, 0x8090, 0x8110, 0x1BC0, 0x1815]

theorem is_blocklisted_iff (id : Nat) :
    blocklisted_features.is_blocklisted id = true ↔ id ∈ blockedIds := by
  simp [blocklisted_features.is_blocklisted, blockedIds,
    blocklisted_features.SPECIAL_KEYS, blocklisted_features.REPORT_RATE,
    blocklisted_features.ONBOARD_PROFILES, blocklisted_features.MODE_STATUS,
    blocklisted_features.MOUSE_BUTTON_SPY,
    blocklisted_features.PERSISTENT_REMAPPABLE_ACTION,
    blocklisted_features.HOST_INFO]
  tauto

/-- C1: every identifier in the blocklisted set (0x1B04, 0x8060, 0x8100,
0x8090, 0x8110, 0x1BC0, 0x1815) makes `verify_feature_safety` return a
`SafetyViolation` error carrying that identifier; every identifier in the
allowed safelist, and every identifier in neither set, yields `Ok(())`. -/
theorem verify_feature_safety_spec (id : Nat) :
    (id ∈ blockedIds →
      verify_feature_safety id =
        .error (.SafetyViolation id
          ((blocklisted_features.blocklist_reason id).getD "Unknown persistent feature")))
    ∧ (allowed_features.is_allowed id = true → verify_feature_safety id = .ok ())
    ∧ (id ∉ blockedIds → verify_feature_safety id = .ok ()) := by
  refine ⟨?_, ?_, ?_⟩
  · intro h
    have hb : blocklisted_features.is_blocklisted id = true := (is_blocklisted_iff id).mpr h
    simp [verify_feature_safety, hb]
  · intro h
    have hm : id ∈ allowed_features.SAFELIST := by
      simpa [allowed_features.is_allowed] using h
    have hb : blocklisted_features.is_blocklisted id = false := by
      fin_cases hm <;> rfl
    simp [verify_feature_safety, hb]
  · intro h
    have hb : blocklisted_features.is_blocklisted id = false := by
      rcases hbt : blocklisted_features.is_blocklisted id with _ | _
      · rfl
      · exact absurd ((is_blocklisted_iff id).mp hbt) h
    simp [verify_feature_safety, hb]

/-- Witness for C1: concrete instances of all three cases
(0x8100 blocklisted, 0x2201 allowed, 0x9999 unclassified). -/
theorem verify_feature_safety_spec_witness :
    verify_feature_safety 0x8100 =
        .error (.SafetyViolation 0x8100 "Persistent profile storage")
    ∧ verify_feature_safety 0x2201 = .ok ()
    ∧ verify_feature_safety 0x9999 = .ok () := by
  refine ⟨?_, ?_, ?_⟩
  · exact (verify_feature_safety_spec 0x8100).1 (by decide)
  · exact (verify_feature_safety_spec 0x2201).2.1 (by decide)
  · exact (verify_feature_safety_spec 0x9999).2.2 (by decide)

/-! ## Wire codec (hidpp.rs, `HidppShortMessage` / `HidppLongMessage`) -/

namespace report_type

def SHORT : Nat := 0x10
def LONG : Nat := 0x11
def VERY_LONG : Nat := 0x12

end report_type

/-- `HidppShortMessage` (hidpp.rs:224).  `params` is the 3-byte parameter
array, modelled as a list (length 3 in every state the source can build). -/
structure HidppShortMessage where
  report_type : Nat
  device_index : Nat
  feature_index : Nat
  function_sw_id : Nat
  params : List Nat
deriving DecidableEq

/-- `HidppShortMessage::new` (hidpp.rs:239).  `function_id << 4` is a u8
shift, hence the `% 256`. -/
def HidppShortMessage.new (device_index feature_index function_id sw_id : Nat) :
    HidppShortMessage :=
  { report_type := report_type.SHORT
    device_index := device_index
    feature_index := feature_index
    function_sw_id := ((function_id <<< 4) % 256) ||| (sw_id &&& 0x0F)
    params := [0, 0, 0] }

/-- `HidppShortMessage::with_params` (hidpp.rs:250): replaces the whole
3-byte array. -/
def HidppShortMessage.with_params (m : HidppShortMessage) (p : List Nat) :
    HidppShortMessage :=
  { m with params := p }

/-- `HidppShortMessage::to_bytes` (hidpp.rs:256). -/
def HidppShortMessage.to_bytes (m : HidppShortMessage) : List Nat :=
  [m.report_type, m.device_index, m.feature_index, m.function_sw_id,
   m.params.getD 0 0, m.params.getD 1 0, m.params.getD 2 0]

/-- `HidppShortMessage::from_bytes` (hidpp.rs:269): `None` when fewer than
7 bytes or the leading byte is not 0x10. -/
def HidppShortMessage.from_bytes (bytes : List Nat) : Option HidppShortMessage :=
  if bytes.length < 7 ∨ bytes.getD 0 0 ≠ report_type.SHORT then none
  else some
    { report_type := bytes.getD 0 0
      device_index := bytes.getD 1 0
      feature_index := bytes.getD 2 0
      function_sw_id := bytes.getD 3 0
      params := [bytes.getD 4 0, bytes.getD 5 0, bytes.getD 6 0] }

/-- `HidppShortMessage::function_id` (hidpp.rs:283). -/
def HidppShortMessage.function_id (m : HidppShortMessage) : Nat :=
  m.function_sw_id >>> 4

/-- `HidppShortMessage::sw_id` (hidpp.rs:288). -/
def HidppShortMessage.sw_id (m : HidppShortMessage) : Nat :=
  m.function_sw_id &&& 0x0F

/-- `HidppLongMessage` (hidpp.rs:295): 16-byte parameter slot. -/
structure HidppLongMessage where
  report_type : Nat
  device_index : Nat
  feature_index : Nat
  function_sw_id : Nat
  params : List Nat
deriving DecidableEq

/-- `HidppLongMessage::new` (hidpp.rs:310). -/
def HidppLongMessage.new (device_index feature_index function_id sw_id : Nat) :
    HidppLongMessage :=
  { report_type := report_type.LONG
    device_index := device_index
    feature_index := feature_index
    function_sw_id := ((function_id <<< 4) % 256) ||| (sw_id &&& 0x0F)
    params := List.replicate 16 0 }

/-- `HidppLongMessage::with_params` (hidpp.rs:321): copies
`min(p.len, 16)` bytes over the front of the existing 16-byte array. -/
def HidppLongMessage.with_params (m : HidppLongMessage) (p : List Nat) :
    HidppLongMessage :=
  { m with params := p.take 16 ++ m.params.drop (min p.length 16) }

/-- `HidppLongMessage::to_bytes` (hidpp.rs:328). -/
def HidppLongMessage.to_bytes (m : HidppLongMessage) : List Nat :=
  [m.report_type, m.device_index, m.feature_index, m.function_sw_id] ++ m.params

/-- `HidppLongMessage::from_bytes` (hidpp.rs:339): `None` when fewer than
20 bytes or the leading byte is not 0x11. -/
def HidppLongMessage.from_bytes (bytes : List Nat) : Option HidppLongMessage :=
  if bytes.length < 20 ∨ bytes.getD 0 0 ≠ report_type.LONG then none
  else some
    { report_type := bytes.getD 0 0
      device_index := bytes.getD 1 0
      feature_index := bytes.getD 2 0
      function_sw_id := bytes.getD 3 0
      params := (bytes.drop 4).take 16 }

theorem pack_unpack :
    ∀ fn < 16, ∀ sw < 16,
      (((fn <<< 4) % 256) ||| (sw &&& 0x0F)) >>> 4 = fn
      ∧ (((fn <<< 4) % 256) ||| (sw &&& 0x0F)) &&& 0x0F = sw := by
  decide

/-- C4: encode→decode round-trips for both frame sizes (with function-id and
request-tag recovered through the 4-bit unpacking), and decode returns `none`
for a too-short buffer or a wrong leading byte. -/
theorem hidpp_codec_roundtrip (di fi fn sw : Nat) (p3 p16 bs : List Nat)
    (hfn : fn < 16) (hsw : sw < 16)
    (hp3 : p3.length = 3) (hp16 : p16.length = 16) :
    HidppShortMessage.from_bytes ((HidppShortMessage.new di fi fn sw).with_params p3).to_bytes
        = some ((HidppShortMessage.new di fi fn sw).with_params p3)
    ∧ ((HidppShortMessage.new di fi fn sw).with_params p3).function_id = fn
    ∧ ((HidppShortMessage.new di fi fn sw).with_params p3).sw_id = sw
    ∧ HidppLongMessage.from_bytes ((HidppLongMessage.new di fi fn sw).with_params p16).to_bytes
        = some ((HidppLongMessage.new di fi fn sw).with_params p16)
    ∧ (bs.length < 7 → HidppShortMessage.from_bytes bs = none)
    ∧ (bs.length < 20 → HidppLongMessage.from_bytes bs = none)
    ∧ (bs.getD 0 0 ≠ 0x10 → HidppShortMessage.from_bytes bs = none)
    ∧ (bs.getD 0 0 ≠ 0x11 → HidppLongMessage.from_bytes bs = none) := by
  obtain ⟨a, b, c, rfl⟩ : ∃ a b c, p3 = [a, b, c] := by
    match p3, hp3 with
    | [a, b, c], _ => exact ⟨a, b, c, rfl⟩
  have htake : p16.take 16 = p16 := by
    rw [← hp16]; exact List.take_length p16
  have hM : (HidppLongMessage.new di fi fn sw).with_params p16
      = { report_type := report_type.LONG, device_index := di, feature_index := fi,
          function_sw_id := ((fn <<< 4) % 256) ||| (sw &&& 0x0F), params := p16 } := by
    have h2 : (List.replicate 16 (0 : Nat)).drop (min p16.length 16) = [] := by
      apply List.drop_eq_nil_of_le
      simp
      omega
    simp [HidppLongMessage.with_params, HidppLongMessage.new, htake, h2]
    omega
  refine ⟨?_, ?_, ?_, ?_, ?_, ?_, ?_, ?_⟩
  · simp [HidppShortMessage.new, HidppShortMessage.with_params,
      HidppShortMessage.to_bytes, HidppShortMessage.from_bytes, report_type.SHORT]
  · simpa [HidppShortMessage.with_params, HidppShortMessage.new,
      HidppShortMessage.function_id] using (pack_unpack fn hfn sw hsw).1
  · simpa [HidppShortMessage.with_params, HidppShortMessage.new,
      HidppShortMessage.sw_id] using (pack_unpack fn hfn sw hsw).2
  · rw [hM]
    simp [HidppLongMessage.to_bytes, HidppLongMessage.from_bytes,
      report_type.LONG, hp16, htake]
  · intro h
    simp [HidppShortMessage.from_bytes, h]
  · intro h
    simp [HidppLongMessage.from_bytes, h]
  · intro h
    have hx : bs[0]?.getD 0 ≠ 16 := by simpa using h
    simp [HidppShortMessage.from_bytes, report_type.SHORT, hx]
  · intro h
    have hx : bs[0]?.getD 0 ≠ 17 := by simpa using h
    simp [HidppLongMessage.from_bytes, report_type.LONG, hx]

/-- Witness for C4: concrete short and long frames (the short one is the
frame from the source's own construction test), plus the decode-failure
cases on the buffer `[0x12]`. -/
theorem hidpp_codec_roundtrip_witness :
    HidppShortMessage.from_bytes
        ((HidppShortMessage.new 0xFF 0 1 5).with_params [0xAA, 0xBB, 0xCC]).to_bytes
      = some ((HidppShortMessage.new 0xFF 0 1 5).with_params [0xAA, 0xBB, 0xCC])
    ∧ ((HidppShortMessage.new 0xFF 0 1 5).with_params [0xAA, 0xBB, 0xCC]).function_id = 1
    ∧ ((HidppShortMessage.new 0xFF 0 1 5).with_params [0xAA, 0xBB, 0xCC]).sw_id = 5
    ∧ HidppLongMessage.from_bytes
        ((HidppLongMessage.new 1 5 2 10).with_params (List.replicate 16 7)).to_bytes
      = some ((HidppLongMessage.new 1 5 2 10).with_params (List.replicate 16 7))
    ∧ HidppShortMessage.from_bytes [0x12] = none
    ∧ HidppLongMessage.from_bytes [0x12] = none := by
  have h := hidpp_codec_roundtrip 0xFF 0 1 5 [0xAA, 0xBB, 0xCC] (List.replicate 16 7) [0x12]
    (by decide) (by decide) (by decide) (by decide)
  have h2 := hidpp_codec_roundtrip 1 5 2 10 [0xAA, 0xBB, 0xCC] (List.replicate 16 7) [0x12]
    (by decide) (by decide) (by decide) (by decide)
  exact ⟨h.1, h.2.1, h.2.2.1, h2.2.2.2.1, h.2.2.2.2.1 (by decide), h.2.2.2.2.2.1 (by decide)⟩

/-! ## Request/response exchange (hidpp.rs, `HidppDevice::hidpp_request`)

The channel is modelled by an oracle list of read outcomes: each poll of the
non-blocking hidraw fd either yields a frame (the bytes actually read),
reports `WouldBlock` (no data yet), or fails with another I/O error.  When
the oracle list is exhausted, further polls yield `wouldBlock`. -/

def SOFTWARE_ID : Nat := 0x01

/-- One result of a non-blocking `read` on the hidraw channel. -/
inductive PollRead where
  | frame (bytes : List Nat)
  | wouldBlock
  | readErr
deriving DecidableEq

/-- What the body of the polling loop does with one read result:
return from `hidpp_request` with `r`, or keep polling. -/
inductive PollStep where
  | ret (r : Option (List Nat))
  | next
deriving DecidableEq

/-- The reply matches the outgoing request on device-index, feature-index,
function-id and request-tag (hidpp.rs:642-648). -/
def matchesRequest (device_index feature_index function : Nat) (bytes : List Nat) : Bool :=
  bytes.getD 1 0 == device_index
    && bytes.getD 2 0 == feature_index
    && ((bytes.getD 3 0 >>> 4) &&& 0x0F) == function
    && (bytes.getD 3 0 &&& 0x0F) == SOFTWARE_ID

/-- One iteration of the read loop body of `hidpp_request` (hidpp.rs:627-706):
reads shorter than 7 bytes and frames of unknown kind are skipped; a frame
matching all four request fields is returned; otherwise a frame whose
feature-index byte is the 0xFF error marker (or the legacy 0x8F marker)
aborts with `none`; anything else is ignored and polling continues.  A read
error other than `WouldBlock` aborts with `none`. -/
def classifyRead (device_index feature_index function : Nat) (r : PollRead) : PollStep :=
  match r with
  | .readErr => .ret none
  | .wouldBlock => .next
  | .frame bytes =>
    if bytes.length ≥ 7 then
      if bytes.getD 0 0 = report_type.SHORT ∨ bytes.getD 0 0 = report_type.LONG then
        if matchesRequest device_index feature_index function bytes then
          .ret (some bytes)
        else if bytes.getD 2 0 = 0xFF then .ret none
        else if bytes.getD 2 0 = 0x8F then .ret none
        else .next
      else .next
    else .next

/-- The bounded polling loop of `hidpp_request` (hidpp.rs:624-715).
The source increments `attempts` after processing each read and exits with
`None` once `attempts > 100`; `fuel` here counts how many more times that
guard allows the loop to continue, so a call with fuel `f` processes up to
`f + 1` reads. -/
def pollLoop (device_index feature_index function : Nat) :
    Nat → List PollRead → Option (List Nat)
  | fuel, reads =>
    match classifyRead device_index feature_index function (reads.headD .wouldBlock) with
    | .ret r => r
    | .next =>
      match fuel with
      | 0 => none
      | f + 1 => pollLoop device_index feature_index function f reads.tail

/-- `hidpp_request` (hidpp.rs:595-716): drains stale buffered data, writes
one short frame (`writeOk` models the `write_all` outcome; a write failure
returns `none` at once), then polls with the attempts budget (initial fuel
100, i.e. at most 101 processed reads). -/
def hidpp_request (device_index feature_index function : Nat) (writeOk : Bool)
    (reads : List PollRead) : Option (List Nat) :=
  if writeOk then pollLoop device_index feature_index function 100 reads
  else none

theorem classifyRead_ret_some (d fi fn : Nat) (r : PollRead) (resp : List Nat)
    (h : classifyRead d fi fn r = .ret (some resp)) :
    r = .frame resp ∧ resp.length ≥ 7 ∧ matchesRequest d fi fn resp = true := by
  cases r with
  | readErr => simp [classifyRead] at h
  | wouldBlock => simp [classifyRead] at h
  | frame bytes =>
    simp only [classifyRead] at h
    by_cases hlen : bytes.length ≥ 7
    · rw [if_pos hlen] at h
      by_cases hkind : bytes.getD 0 0 = report_type.SHORT ∨ bytes.getD 0 0 = report_type.LONG
      · rw [if_pos hkind] at h
        by_cases hm : matchesRequest d fi fn bytes = true
        · rw [if_pos hm] at h
          obtain rfl : bytes = resp := by
            injection h with h1
            injection h1
          exact ⟨rfl, hlen, hm⟩
        · rw [if_neg hm] at h
          by_cases hff : bytes.getD 2 0 = 0xFF
          · rw [if_pos hff] at h
            simp at h
          · rw [if_neg hff] at h
            by_cases h8f : bytes.getD 2 0 = 0x8F
            · rw [if_pos h8f] at h
              simp at h
            · rw [if_neg h8f] at h
              simp at h
      · rw [if_neg hkind] at h
        simp at h
    · rw [if_neg hlen] at h
      simp at h

theorem pollLoop_some_matches (d fi fn : Nat) :
    ∀ (fuel : Nat) (reads : List PollRead) (resp : List Nat),
      pollLoop d fi fn fuel reads = some resp →
      resp.length ≥ 7 ∧ matchesRequest d fi fn resp = true := by
  intro fuel
  induction fuel with
  | zero =>
    intro reads resp h
    rw [pollLoop] at h
    rcases hc : classifyRead d fi fn (reads.headD .wouldBlock) with r | _
    · rw [hc] at h
      simp at h
      subst h
      have := classifyRead_ret_some d fi fn _ resp hc
      exact ⟨this.2.1, this.2.2⟩
    · rw [hc] at h
      simp at h
  | succ f ih =>
    intro reads resp h
    rw [pollLoop] at h
    rcases hc : classifyRead d fi fn (reads.headD .wouldBlock) with r | _
    · rw [hc] at h
      simp at h
      subst h
      have := classifyRead_ret_some d fi fn _ resp hc
      exact ⟨this.2.1, this.2.2⟩
    · rw [hc] at h
      exact ih reads.tail resp h

theorem pollLoop_none_of_all_next (d fi fn : Nat) :
    ∀ (fuel : Nat) (reads : List PollRead),
      (∀ r ∈ reads.take (fuel + 1), classifyRead d fi fn r = .next) →
      pollLoop d fi fn fuel reads = none := by
  intro fuel
  induction fuel with
  | zero =>
    intro reads hall
    rw [pollLoop]
    have hc : classifyRead d fi fn (reads.headD .wouldBlock) = .next := by
      cases reads with
      | nil => rfl
      | cons x xs => exact hall x (by simp)
    rw [hc]
  | succ f ih =>
    intro reads hall
    rw [pollLoop]
    have hc : classifyRead d fi fn (reads.headD .wouldBlock) = .next := by
      cases reads with
      | nil => rfl
      | cons x xs => exact hall x (by simp [List.take_succ_cons])
    rw [hc]
    apply ih
    intro r hr
    cases reads with
    | nil => simp at hr
    | cons x xs =>
      exact hall r (by simp [List.take_succ_cons]; right; simpa using hr)

/-- C3 (amended): when `hidpp_request` returns a reply, the reply's
device-index, feature-index, function-id and request-tag all equal those of
the outgoing request; a well-formed frame matching neither the request nor
an error marker is ignored and polling continues on the remaining reads; a
non-matching reply whose feature-index byte is the 0xFF error marker — and
likewise one carrying the legacy 0x8F error marker — makes the call return
`none` instead of being ignored; and if none of the first 101 processed
reads causes a return, the call times out with `none`.  (The attempts
counter is checked after it is incremented, so the budget is 101 processed
reads, not 100: a matching frame arriving on the 101st read is still
returned.) -/
theorem hidpp_request_spec (d fi fn : Nat) (reads rest : List PollRead)
    (bytes resp : List Nat) :
    (hidpp_request d fi fn true reads = some resp →
      resp.getD 1 0 = d ∧ resp.getD 2 0 = fi
        ∧ ((resp.getD 3 0 >>> 4) &&& 0x0F) = fn
        ∧ (resp.getD 3 0 &&& 0x0F) = SOFTWARE_ID)
    ∧ (∀ fuel, bytes.length ≥ 7 →
        (bytes.getD 0 0 = 0x10 ∨ bytes.getD 0 0 = 0x11) →
        matchesRequest d fi fn bytes = false →
        bytes.getD 2 0 ≠ 0xFF → bytes.getD 2 0 ≠ 0x8F →
        pollLoop d fi fn (fuel + 1) (.frame bytes :: rest)
          = pollLoop d fi fn fuel rest)
    ∧ (bytes.length ≥ 7 →
        (bytes.getD 0 0 = 0x10 ∨ bytes.getD 0 0 = 0x11) →
        matchesRequest d fi fn bytes = false →
        bytes.getD 2 0 = 0xFF →
        hidpp_request d fi fn true (.frame bytes :: rest) = none)
    ∧ (bytes.length ≥ 7 →
        (bytes.getD 0 0 = 0x10 ∨ bytes.getD 0 0 = 0x11) →
        matchesRequest d fi fn bytes = false →
        bytes.getD 2 0 = 0x8F →
        hidpp_request d fi fn true (.frame bytes :: rest) = none)
    ∧ ((∀ r ∈ reads.take 101, classifyRead d fi fn r = .next) →
        hidpp_request d fi fn true reads = none) := by
  refine ⟨?_, ?_, ?_, ?_, ?_⟩
  · intro h
    rw [hidpp_request, if_pos rfl] at h
    have hm := (pollLoop_some_matches d fi fn 100 reads resp h).2
    simp only [matchesRequest, Bool.and_eq_true, beq_iff_eq] at hm
    exact ⟨hm.1.1.1, hm.1.1.2, hm.1.2, hm.2⟩
  · intro fuel hlen hkind hm hff h8f
    rw [pollLoop]
    have hc : classifyRead d fi fn ((PollRead.frame bytes :: rest).headD .wouldBlock)
        = .next := by
      show classifyRead d fi fn (.frame bytes) = .next
      simp only [classifyRead]
      have hkind2 : bytes.getD 0 0 = report_type.SHORT ∨ bytes.getD 0 0 = report_type.LONG :=
        hkind
      rw [if_pos hlen, if_pos hkind2, if_neg (by simp [hm]), if_neg hff, if_neg h8f]
    rw [hc]
    rfl
  · intro hlen hkind hm hff
    rw [hidpp_request, if_pos rfl, pollLoop]
    have hc : classifyRead d fi fn ((PollRead.frame bytes :: rest).headD .wouldBlock)
        = .ret none := by
      show classifyRead d fi fn (.frame bytes) = .ret none
      simp only [classifyRead]
      have hkind2 : bytes.getD 0 0 = report_type.SHORT ∨ bytes.getD 0 0 = report_type.LONG :=
        hkind
      rw [if_pos hlen, if_pos hkind2, if_neg (by simp [hm]), if_pos hff]
    rw [hc]
  · intro hlen hkind hm h8f
    rw [hidpp_request, if_pos rfl, pollLoop]
    have hc : classifyRead d fi fn ((PollRead.frame bytes :: rest).headD .wouldBlock)
        = .ret none := by
      show classifyRead d fi fn (.frame bytes) = .ret none
      simp only [classifyRead]
      have hkind2 : bytes.getD 0 0 = report_type.SHORT ∨ bytes.getD 0 0 = report_type.LONG :=
        hkind
      have hff : bytes.getD 2 0 ≠ 0xFF := by
        rw [h8f]
        decide
      rw [if_pos hlen, if_pos hkind2, if_neg (by simp [hm]), if_neg hff, if_pos h8f]
    rw [hc]
  · intro hall
    rw [hidpp_request, if_pos rfl]
    exact pollLoop_none_of_all_next d fi fn 100 reads hall

/-- Witness for C3 (amended): a concrete exchange of request
(device 2, feature 11, function 4) against a channel that first reports
no data, then an unrelated notification frame, then the matching reply;
plus the 0xFF error frame, the legacy 0x8F error frame and the timeout
cases on concrete channels. -/
theorem hidpp_request_spec_witness :
    hidpp_request 2 11 4 true
        [.wouldBlock, .frame [0x11, 2, 3, 0x02, 1, 1, 1],
         .frame [0x11, 2, 11, 0x41, 9, 9, 9]]
      = some [0x11, 2, 11, 0x41, 9, 9, 9]
    ∧ ([0x11, 2, 11, 0x41, 9, 9, 9] : List Nat).getD 1 0 = 2
    ∧ ([0x11, 2, 11, 0x41, 9, 9, 9] : List Nat).getD 2 0 = 11
    ∧ ((([0x11, 2, 11, 0x41, 9, 9, 9] : List Nat).getD 3 0 >>> 4) &&& 0x0F) = 4
    ∧ pollLoop 2 11 4 100 [.frame [0x11, 2, 3, 0x02, 1, 1, 1]]
        = pollLoop 2 11 4 99 []
    ∧ hidpp_request 2 11 4 true [.frame [0x11, 2, 0xFF, 0x41, 4, 2, 0]] = none
    ∧ hidpp_request 2 11 4 true [.frame [0x10, 9, 0x8F, 0x22, 0, 0, 0]] = none
    ∧ hidpp_request 2 11 4 true [.frame [0x12, 2, 11, 0x41, 9, 9, 9]] = none := by
  have h := hidpp_request_spec 2 11 4
    [.wouldBlock, .frame [0x11, 2, 3, 0x02, 1, 1, 1], .frame [0x11, 2, 11, 0x41, 9, 9, 9]]
    [] [0x11, 2, 3, 0x02, 1, 1, 1] [0x11, 2, 11, 0x41, 9, 9, 9]
  have h2 := hidpp_request_spec 2 11 4 [.frame [0x12, 2, 11, 0x41, 9, 9, 9]]
    [] [0x11, 2, 0xFF, 0x41, 4, 2, 0] []
  have h3 := hidpp_request_spec 2 11 4 [.frame [0x12, 2, 11, 0x41, 9, 9, 9]]
    [] [0x10, 9, 0x8F, 0x22, 0, 0, 0] []
  have hret : hidpp_request 2 11 4 true
      [.wouldBlock, .frame [0x11, 2, 3, 0x02, 1, 1, 1],
       .frame [0x11, 2, 11, 0x41, 9, 9, 9]]
      = some [0x11, 2, 11, 0x41, 9, 9, 9] := by decide
  have hm := h.1 hret
  refine ⟨hret, hm.1, hm.2.1, hm.2.2.1, ?_, ?_, ?_, ?_⟩
  · exact h.2.1 99 (by decide) (by decide) (by decide) (by decide) (by decide)
  · exact h2.2.2.1 (by decide) (by decide) (by decide) (by decide)
  · exact h3.2.2.2.1 (by decide) (by decide) (by decide) (by decide)
  · exact h2.2.2.2.2 (by decide)

/-- Channel for the C3 counterexample: 100 empty polls, then the matching
reply as the 101st processed read. -/
def budgetReads : List PollRead :=
  List.replicate 100 .wouldBlock ++ [.frame [0x11, 2, 11, 0x41, 0, 0, 0]]

/-- Counterexample to C3 as stated, at two concrete inputs: (1) no
matching frame arrives within the documented budget of 100 poll attempts
(the first 100 reads all report no data), yet the call does not time out —
the matching frame processed on the 101st read is returned; (2) a
well-formed frame matching none of the four request fields, whose
feature-index byte is the legacy 0x8F error marker, is NOT "ignored with
polling continuing": it aborts the call with `none` even though the
matching reply is the very next read. -/
theorem hidpp_request_budget_cex :
    ((∀ r ∈ budgetReads.take 100, classifyRead 2 11 4 r = .next)
      ∧ hidpp_request 2 11 4 true budgetReads = some [0x11, 2, 11, 0x41, 0, 0, 0])
    ∧ (matchesRequest 2 11 4 [0x10, 9, 0x8F, 0x22, 0, 0, 0] = false
      ∧ hidpp_request 2 11 4 true
          [.frame [0x10, 9, 0x8F, 0x22, 0, 0, 0], .frame [0x11, 2, 11, 0x41, 0, 0, 0]]
        = none) := by
  refine ⟨⟨?_, ?_⟩, ?_, ?_⟩ <;> decide

/-! ## Feature table discovery (hidpp.rs, `HidppDevice::enumerate_features`) -/

/-- `HidppDevice::get_feature_index` (hidpp.rs:871): IRoot function 0x00
(getFeatureIndex); a zero index means the feature is unsupported. -/
def get_feature_index (device_index : Nat) (writeOk : Bool) (feature_id : Nat)
    (reads : List PollRead) : Option Nat :=
  let _params := [feature_id >>> 8, feature_id &&& 0xFF, 0]
  (hidpp_request device_index 0x00 0x00 writeOk reads).bind fun resp =>
    if resp.length ≥ 5 then
      let index := resp.getD 4 0
      if index = 0 then none else some index
    else none

/-- The per-session discovery state mutated by `enumerate_features`
(the relevant fields of `HidppDevice`, hidpp.rs:401-414). -/
structure FeatureScan where
  feature_table : List (Nat × Nat)
  haptic_supported : Bool
  haptic_feature_index : Option Nat
  mx4_haptic_supported : Bool
  mx4_haptic_feature_index : Option Nat
  dpi_supported : Bool
  dpi_feature_index : Option Nat
deriving DecidableEq

def FeatureScan.empty : FeatureScan :=
  ⟨[], false, none, false, none, false, none⟩

/-- `HashMap::insert` on the feature table: any previous binding of the
key is replaced by the new one. -/
def tableInsert (tbl : List (Nat × Nat)) (fid fidx : Nat) : List (Nat × Nat) :=
  tbl.filter (fun p => !(p.1 == fid)) ++ [(fid, fidx)]

/-- `((resp[4] as u16) << 8) | (resp[5] as u16)` (hidpp.rs:794). -/
def decodeFeatureId (resp : List Nat) : Nat :=
  ((resp.getD 4 0) <<< 8) ||| (resp.getD 5 0)

/-- Channel oracle for the three kinds of requests issued during feature
enumeration. -/
structure EnumReads where
  rootReads : List PollRead
  countReads : List PollRead
  entryReads : Nat → List PollRead

/-- The body of the `for i in 0..feature_count` loop of
`enumerate_features` (hidpp.rs:788-858): request the identifier at
table-position `i`, skip too-short replies, skip (never insert)
blocklisted identifiers, otherwise insert with the 1-based index `i + 1`
and flag the recognized capability features. -/
def enumEntry (device_index fsIdx : Nat) (writeOk : Bool) (oracle : EnumReads)
    (acc : FeatureScan) (i : Nat) : FeatureScan :=
  match hidpp_request device_index fsIdx 0x01 writeOk (oracle.entryReads i) with
  | none => acc
  | some resp =>
    if resp.length < 6 then acc
    else
      let feature_id := decodeFeatureId resp
      let feature_index := i + 1
      if blocklisted_features.is_blocklisted feature_id then acc
      else
        let acc1 :=
          { acc with feature_table := tableInsert acc.feature_table feature_id feature_index }
        let acc2 :=
          if feature_id = features.FORCE_FEEDBACK then
            { acc1 with haptic_supported := true,
                        haptic_feature_index := some feature_index }
          else acc1
        let acc3 :=
          if feature_id = features.MX_MASTER_4_HAPTIC then
            { acc2 with mx4_haptic_supported := true,
                        mx4_haptic_feature_index := some feature_index }
          else acc2
        let acc4 :=
          if feature_id = features.MX4_HAPTIC_ALT then
            { acc3 with mx4_haptic_supported := true,
                        mx4_haptic_feature_index := some feature_index }
          else acc3
        if feature_id = features.ADJUSTABLE_DPI then
          { acc4 with dpi_supported := true,
                      dpi_feature_index := some feature_index }
        else acc4

/-- `HidppDevice::enumerate_features` (hidpp.rs:769-868): resolve the
IFeatureSet index, read the feature count, then run the enumeration loop.
Any failure along the way leaves the (initially empty) discovery state
unchanged. -/
def enumerate_features (device_index : Nat) (writeOk : Bool) (oracle : EnumReads) :
    FeatureScan :=
  match get_feature_index device_index writeOk features.I_FEATURE_SET oracle.rootReads with
  | none => FeatureScan.empty
  | some fsIdx =>
    match hidpp_request device_index fsIdx 0x00 writeOk oracle.countReads with
    | some resp =>
      if resp.length ≥ 5 then
        (List.range (resp.getD 4 0)).foldl
          (enumEntry device_index fsIdx writeOk oracle) FeatureScan.empty
      else FeatureScan.empty
    | none => FeatureScan.empty

theorem mem_tableInsert {tbl : List (Nat × Nat)} {f n a b : Nat}
    (h : (a, b) ∈ tableInsert tbl f n) : (a, b) ∈ tbl ∨ (a = f ∧ b = n) := by
  rcases List.mem_append.mp h with h1 | h1
  · exact Or.inl (List.mem_filter.mp h1).1
  · simp at h1
    exact Or.inr h1

theorem enumEntry_table (device_index fsIdx : Nat) (writeOk : Bool)
    (oracle : EnumReads) (acc : FeatureScan) (i : Nat) :
    (enumEntry device_index fsIdx writeOk oracle acc i).feature_table = acc.feature_table
    ∨ ∃ resp,
        hidpp_request device_index fsIdx 0x01 writeOk (oracle.entryReads i) = some resp
        ∧ resp.length ≥ 6
        ∧ blocklisted_features.is_blocklisted (decodeFeatureId resp) = false
        ∧ (enumEntry device_index fsIdx writeOk oracle acc i).feature_table
            = tableInsert acc.feature_table (decodeFeatureId resp) (i + 1) := by
  rcases hreq : hidpp_request device_index fsIdx 0x01 writeOk (oracle.entryReads i) with _ | resp
  · left
    simp only [enumEntry, hreq]
  · by_cases hlen : resp.length < 6
    · left
      simp only [enumEntry, hreq]
      rw [if_pos hlen]
    · by_cases hbl : blocklisted_features.is_blocklisted (decodeFeatureId resp) = true
      · left
        simp only [enumEntry, hreq]
        rw [if_neg hlen, if_pos hbl]
      · right
        refine ⟨resp, rfl, by omega, by simpa using hbl, ?_⟩
        simp only [enumEntry, hreq]
        rw [if_neg hlen, if_neg hbl]
        split_ifs <;> rfl

theorem enumFold_mem (device_index fsIdx : Nat) (writeOk : Bool) (oracle : EnumReads) :
    ∀ (l : List Nat) (acc : FeatureScan) (fid fidx : Nat),
      (fid, fidx) ∈ ((l.foldl (enumEntry device_index fsIdx writeOk oracle) acc).feature_table) →
      (fid, fidx) ∈ acc.feature_table
        ∨ (blocklisted_features.is_blocklisted fid = false
           ∧ ∃ i ∈ l, ∃ resp,
               hidpp_request device_index fsIdx 0x01 writeOk (oracle.entryReads i) = some resp
               ∧ resp.length ≥ 6 ∧ decodeFeatureId resp = fid ∧ fidx = i + 1) := by
  intro l
  induction l with
  | nil =>
    intro acc fid fidx h
    exact Or.inl h
  | cons x xs ih =>
    intro acc fid fidx h
    rw [List.foldl_cons] at h
    rcases ih (enumEntry device_index fsIdx writeOk oracle acc x) fid fidx h with h1 | h1
    · rcases enumEntry_table device_index fsIdx writeOk oracle acc x with h2 | ⟨resp, hr, hl, hb, h2⟩
      · rw [h2] at h1
        exact Or.inl h1
      · rw [h2] at h1
        rcases mem_tableInsert h1 with h3 | ⟨rfl, rfl⟩
        · exact Or.inl h3
        · exact Or.inr ⟨hb, x, by simp, resp, hr, hl, rfl, rfl⟩
    · obtain ⟨hbx, i, hi, rest⟩ := h1
      exact Or.inr ⟨hbx, i, by simp [hi], rest⟩

/-- C2: whatever the device replies during feature enumeration, the feature
table never contains a blocklisted identifier, and every entry of the table
arises from the reply for some table-position `i` below the announced
feature count, decodes to that entry's identifier, and is mapped to the
1-based index `i + 1`. -/
theorem enumerate_features_spec (device_index : Nat) (writeOk : Bool)
    (oracle : EnumReads) (fid fidx : Nat)
    (hmem : (fid, fidx) ∈ (enumerate_features device_index writeOk oracle).feature_table) :
    blocklisted_features.is_blocklisted fid = false
    ∧ ∃ fsIdx countResp i resp,
        get_feature_index device_index writeOk features.I_FEATURE_SET oracle.rootReads
          = some fsIdx
        ∧ hidpp_request device_index fsIdx 0x00 writeOk oracle.countReads = some countResp
        ∧ countResp.length ≥ 5
        ∧ i < countResp.getD 4 0
        ∧ hidpp_request device_index fsIdx 0x01 writeOk (oracle.entryReads i) = some resp
        ∧ resp.length ≥ 6
        ∧ decodeFeatureId resp = fid
        ∧ fidx = i + 1 := by
  rcases hroot : get_feature_index device_index writeOk features.I_FEATURE_SET
      oracle.rootReads with _ | fsIdx
  · simp only [enumerate_features, hroot, FeatureScan.empty] at hmem
    simp at hmem
  · rcases hcount : hidpp_request device_index fsIdx 0x00 writeOk oracle.countReads
        with _ | countResp
    · simp only [enumerate_features, hroot, hcount, FeatureScan.empty] at hmem
      simp at hmem
    · by_cases hlen : countResp.length ≥ 5
      · simp only [enumerate_features, hroot, hcount] at hmem
        rw [if_pos hlen] at hmem
        rcases enumFold_mem device_index fsIdx writeOk oracle
            (List.range (countResp.getD 4 0)) FeatureScan.empty fid fidx hmem with
          h1 | ⟨hb, i, hi, resp, hr, hl, hdec, hfx⟩
        · simp [FeatureScan.empty] at h1
        · exact ⟨hb, fsIdx, countResp, i, resp, rfl, hcount, hlen,
            List.mem_range.mp hi, hr, hl, hdec, hfx⟩
      · simp only [enumerate_features, hroot, hcount] at hmem
        rw [if_neg hlen] at hmem
        simp [FeatureScan.empty] at hmem

/-- Enumeration channel for the C2 witness: the device announces three
features — the blocklisted 0x1B04 at position 0, 0x2201 at position 1 and
the unclassified 0x9999 at position 2. -/
def enumOracleEx : EnumReads where
  rootReads := [.frame [0x11, 0xFF, 0x00, 0x01, 0x01, 0, 0]]
  countReads := [.frame [0x11, 0xFF, 0x01, 0x01, 0x03, 0, 0]]
  entryReads := fun i =>
    if i = 0 then [.frame [0x11, 0xFF, 0x01, 0x11, 0x1B, 0x04, 0]]
    else if i = 1 then [.frame [0x11, 0xFF, 0x01, 0x11, 0x22, 0x01, 0]]
    else [.frame [0x11, 0xFF, 0x01, 0x11, 0x99, 0x99, 0]]

/-- Witness for C2: on `enumOracleEx` the blocklisted feature 0x1B04 is
discarded while 0x2201 is inserted at 1-based index 2, and the theorem's
conclusion holds for that entry. -/
theorem enumerate_features_spec_witness :
    (enumerate_features 0xFF true enumOracleEx).feature_table = [(0x2201, 2), (0x9999, 3)]
    ∧ (blocklisted_features.is_blocklisted 0x2201 = false
       ∧ ∃ fsIdx countResp i resp,
           get_feature_index 0xFF true features.I_FEATURE_SET enumOracleEx.rootReads
             = some fsIdx
           ∧ hidpp_request 0xFF fsIdx 0x00 true enumOracleEx.countReads = some countResp
           ∧ countResp.length ≥ 5
           ∧ i < countResp.getD 4 0
           ∧ hidpp_request 0xFF fsIdx 0x01 true (enumOracleEx.entryReads i) = some resp
           ∧ resp.length ≥ 6
           ∧ decodeFeatureId resp = 0x2201
           ∧ 2 = i + 1) := by
  constructor
  · decide
  · exact enumerate_features_spec 0xFF true enumOracleEx 0x2201 2 (by decide)

/-! ## Device session (the fields of `HidppDevice` used by the haptic and
DPI paths, hidpp.rs:394-415).  `writeOk` is the I/O oracle for writes on
this session: whether `write_all` (and the write inside `hidpp_request`)
succeeds. -/

structure HidppDev where
  device_index : Nat
  feature_table : List (Nat × Nat)
  haptic_supported : Bool
  haptic_feature_index : Option Nat
  mx4_haptic_supported : Bool
  mx4_haptic_feature_index : Option Nat
  dpi_supported : Bool
  dpi_feature_index : Option Nat
  writeOk : Bool
deriving DecidableEq

/-- `HidppDevice::haptic_supported()` (hidpp.rs:891): any haptic capability,
MX4 or legacy. -/
def HidppDev.haptic_supported_any (d : HidppDev) : Bool :=
  d.mx4_haptic_supported || d.haptic_supported

/-- `HidppDevice::send_haptic_pattern` (hidpp.rs:920-962): without the MX4
haptic feature, succeed silently with no device interaction; otherwise
write one fixed-format short frame, fire-and-forget (`write_all` failure is
mapped to `IoError`).  The second component counts device write attempts. -/
def HidppDev.send_haptic_pattern (d : HidppDev) (pattern : Nat) :
    Except HapticError Unit × Nat :=
  if !d.mx4_haptic_supported then (.ok (), 0)
  else
    let _request := [report_type.SHORT, d.device_index, 0x0B, 0x4E, pattern, 0, 0]
    if d.writeOk then (.ok (), 1) else (.error .IoError, 1)

/-- `HidppDevice::send_haptic_pulse` (hidpp.rs:970-993): without a legacy
haptic feature index, succeed silently; otherwise issue one `hidpp_request`
whose outcome — including a failed write — is only logged: the function
returns `Ok(())` either way.  The second component counts write attempts
(the request performs exactly one). -/
def HidppDev.send_haptic_pulse (d : HidppDev) (intensity duration_ms : Nat)
    (reads : List PollRead) : Except HapticError Unit × Nat :=
  match d.haptic_feature_index with
  | none => (.ok (), 0)
  | some fi =>
    let _params := [intensity, duration_ms >>> 8, duration_ms &&& 0xFF]
    let _resp := hidpp_request d.device_index fi 0x00 d.writeOk reads
    (.ok (), 1)

/-- `HidppDevice::get_dpi` (hidpp.rs:1008-1028): `None` when the DPI
feature was never discovered and also when the exchange fails or the reply
is too short. -/
def HidppDev.get_dpi (d : HidppDev) (reads : List PollRead) : Option Nat :=
  d.dpi_feature_index.bind fun fi =>
    (hidpp_request d.device_index fi 0x02 d.writeOk reads).bind fun resp =>
      if resp.length ≥ 7 then
        some (((resp.getD 5 0) <<< 8) ||| (resp.getD 6 0))
      else none

/-- `HidppDevice::set_dpi` (hidpp.rs:1037-1072): `NotSupported` when the
DPI feature was never discovered; `CommunicationError` when the exchange
yields no reply; `Ok` otherwise (a short reply is accepted with a log
warning). -/
def HidppDev.set_dpi (d : HidppDev) (dpi : Nat) (reads : List PollRead) :
    Except HapticError Unit :=
  match d.dpi_feature_index with
  | none => .error .NotSupported
  | some fi =>
    let _params := [0, dpi >>> 8, dpi &&& 0xFF]
    match hidpp_request d.device_index fi 0x03 d.writeOk reads with
    | some _resp => .ok ()
    | none => .error .CommunicationError

/-- The parsing loop of `HidppDevice::get_dpi_list` (hidpp.rs:1094-1109):
big-endian 16-bit pairs, stopping at a zero sentinel and skipping
step-range markers (values ≥ 0xE000). -/
def parseDpiList : List Nat → List Nat
  | b0 :: b1 :: rest =>
    let dpi := (b0 <<< 8) ||| b1
    if dpi = 0 then []
    else if dpi ≥ 0xE000 then parseDpiList rest
    else dpi :: parseDpiList rest
  | _ => []

/-- `HidppDevice::get_dpi_list` (hidpp.rs:1078-1114). -/
def HidppDev.get_dpi_list (d : HidppDev) (reads : List PollRead) : Option (List Nat) :=
  d.dpi_feature_index.bind fun fi =>
    (hidpp_request d.device_index fi 0x01 d.writeOk reads).bind fun resp =>
      if resp.length < 6 then none
      else some (parseDpiList (resp.drop 5))

/-! ## Haptic events, patterns and profiles (hidpp.rs:1122-1397) -/

/-- `HapticPulse` (hidpp.rs:1123). -/
structure HapticPulse where
  intensity : Nat
  duration_ms : Nat
deriving DecidableEq

namespace haptic_profiles

def MENU_APPEAR : HapticPulse := ⟨20, 10⟩
def SLICE_CHANGE : HapticPulse := ⟨40, 15⟩
def CONFIRM : HapticPulse := ⟨80, 25⟩
def INVALID : HapticPulse := ⟨30, 50⟩

end haptic_profiles

/-- `HapticPattern` (hidpp.rs:1165). -/
inductive HapticPattern where
  | Single
  | Double
  | Triple
deriving DecidableEq

/-- `HapticPattern::pulse_count` (hidpp.rs:1176). -/
def HapticPattern.pulse_count : HapticPattern → Nat
  | .Single => 1
  | .Double => 2
  | .Triple => 3

/-- `HapticPattern::gap_ms` (hidpp.rs:1185). -/
def HapticPattern.gap_ms : HapticPattern → Nat
  | .Single => 0
  | .Double => 30
  | .Triple => 20

/-- `HapticEvent` (hidpp.rs:1327). -/
inductive HapticEvent where
  | MenuAppear
  | SliceChange
  | SelectionConfirm
  | InvalidAction
deriving DecidableEq

/-- `HapticEvent::base_profile` (hidpp.rs:1340). -/
def HapticEvent.base_profile : HapticEvent → HapticPulse
  | .MenuAppear => haptic_profiles.MENU_APPEAR
  | .SliceChange => haptic_profiles.SLICE_CHANGE
  | .SelectionConfirm => haptic_profiles.CONFIRM
  | .InvalidAction => haptic_profiles.INVALID

/-- `HapticEvent::pattern` (hidpp.rs:1350). -/
def HapticEvent.pattern : HapticEvent → HapticPattern
  | .MenuAppear => .Single
  | .SliceChange => .Single
  | .SelectionConfirm => .Double
  | .InvalidAction => .Triple

/-- `PerEventPattern` (hidpp.rs:1405): MX4 waveform identifiers (the one
byte sent on the wire, `Mx4HapticPattern::to_id`) per UX event. -/
structure PerEventPattern where
  menu_appear : Nat
  slice_change : Nat
  confirm : Nat
  invalid : Nat
deriving DecidableEq

/-- `PerEventPattern::default()` (hidpp.rs:1417): DampStateChange (0x01),
SubtleCollision (0x04), SharpStateChange (0x00), AngryAlert (0x06). -/
def PerEventPattern.defaults : PerEventPattern :=
  ⟨0x01, 0x04, 0x00, 0x06⟩

/-- `PerEventPattern::get` (hidpp.rs:1429). -/
def PerEventPattern.get (p : PerEventPattern) : HapticEvent → Nat
  | .MenuAppear => p.menu_appear
  | .SliceChange => p.slice_change
  | .SelectionConfirm => p.confirm
  | .InvalidAction => p.invalid

/-! ## Haptic manager (hidpp.rs:1439-2045) -/

/-- `ConnectionState` (hidpp.rs:1441). -/
inductive ConnectionState where
  | NotConnected
  | Connected
  | Disconnected
  | Cooldown
deriving DecidableEq

/-- `RECONNECT_COOLDOWN_MS` (hidpp.rs:1459). -/
def RECONNECT_COOLDOWN_MS : Nat := 5000

/-- `DEFAULT_SLICE_DEBOUNCE_MS` (hidpp.rs:1462). -/
def DEFAULT_SLICE_DEBOUNCE_MS : Nat := 20

/-- `DEFAULT_REENTRY_DEBOUNCE_MS` (hidpp.rs:1465). -/
def DEFAULT_REENTRY_DEBOUNCE_MS : Nat := 50

/-- `HapticManager` (hidpp.rs:1468-1495).  Timestamps are wall-clock
milliseconds; `Instant`-style time is passed to each operation as `now`. -/
structure HapticManager where
  device : Option HidppDev
  default_pattern : Nat
  per_event : PerEventPattern
  enabled : Bool
  last_pulse_ms : Nat
  connection_state : ConnectionState
  last_disconnect_ms : Nat
  debounce_ms : Nat
  slice_debounce_ms : Nat
  reentry_debounce_ms : Nat
  last_slice_change_ms : Nat
  last_slice_index : Option Nat
deriving DecidableEq

/-- `HapticManager::new` (hidpp.rs:1499): default pattern SubtleCollision
(0x04), debounce 20 ms, slice debounce 20 ms, re-entry debounce 50 ms. -/
def HapticManager.new (enabled : Bool) : HapticManager :=
  { device := none
    default_pattern := 0x04
    per_event := PerEventPattern.defaults
    enabled := enabled
    last_pulse_ms := 0
    connection_state := .NotConnected
    last_disconnect_ms := 0
    debounce_ms := 20
    slice_debounce_ms := DEFAULT_SLICE_DEBOUNCE_MS
    reentry_debounce_ms := DEFAULT_REENTRY_DEBOUNCE_MS
    last_slice_change_ms := 0
    last_slice_index := none }

/-- `HapticManager::handle_disconnect` (hidpp.rs:1605-1619): drop the
session, mark Disconnected, record the failure timestamp. -/
def HapticManager.handle_disconnect (m : HapticManager) (now : Nat) : HapticManager :=
  { m with device := none
           connection_state := .Disconnected
           last_disconnect_ms := now }

/-- `HapticManager::connect` (hidpp.rs:1571-1599).  `openResult` models the
outcome of `HidppDevice::open()` (None: no compatible device).  Returns the
updated manager and the `Ok(bool)` payload (`connect` never returns an
error in the source). -/
def HapticManager.connect (m : HapticManager) (openResult : Option HidppDev) :
    HapticManager × Bool :=
  match openResult with
  | some d => ({ m with device := some d, connection_state := .Connected }, true)
  | none => ({ m with connection_state := .NotConnected }, false)

/-- `HapticManager::reconnect_if_needed` (hidpp.rs:1625-1665).  The third
component counts `HidppDevice::open()` attempts (one per `connect`). -/
def HapticManager.reconnect_if_needed (m : HapticManager) (now : Nat)
    (openResult : Option HidppDev) : HapticManager × Bool × Nat :=
  if m.connection_state ≠ .Disconnected ∧ m.connection_state ≠ .Cooldown then
    (m, m.connection_state == .Connected, 0)
  else if now - m.last_disconnect_ms < RECONNECT_COOLDOWN_MS then
    ({ m with connection_state := .Cooldown }, false, 0)
  else
    match m.connect openResult with
    | (m1, true) => (m1, true, 1)
    | (m1, false) =>
      ({ m1 with connection_state := .Cooldown, last_disconnect_ms := now }, false, 1)

/-- The shared send-outcome handling of `pulse` and the MX4 branch of
`emit` (hidpp.rs:1721-1737 and 1787-1801): success stamps the debounce
timestamp, `IoError` disconnects gracefully, any other error is only
logged; the caller always gets `Ok`. -/
def HapticManager.apply_send (m : HapticManager) (now : Nat)
    (r : Except HapticError Unit × Nat) : HapticManager × Except HapticError Unit × Nat :=
  match r with
  | (.ok _, w) => ({ m with last_pulse_ms := now }, .ok (), w)
  | (.error .IoError, w) => (m.handle_disconnect now, .ok (), w)
  | (.error _, w) => (m, .ok (), w)

/-- `HapticManager::pulse` (hidpp.rs:1689-1738): disabled, missing or
haptic-incapable device, and the debounce window all succeed silently; a
successful send updates the debounce timestamp; an `IoError` from the send
(unreachable for `send_haptic_pulse`, which always returns `Ok`) would
disconnect gracefully; the caller always gets `Ok`.  Third component counts
device write attempts. -/
def HapticManager.pulse (m : HapticManager) (now : Nat) (haptic : HapticPulse)
    (reads : List PollRead) : HapticManager × Except HapticError Unit × Nat :=
  if !m.enabled then (m, .ok (), 0)
  else
    match m.device with
    | some d =>
      if d.haptic_supported_any then
        if now - m.last_pulse_ms < m.debounce_ms then (m, .ok (), 0)
        else m.apply_send now (d.send_haptic_pulse haptic.intensity haptic.duration_ms reads)
      else (m, .ok (), 0)
    | none => (m, .ok (), 0)

/-- The legacy pattern execution of `emit` (hidpp.rs:1824-1844): one pulse
per `pulse_count`, resetting the debounce timestamp to 0 between repeats;
the source sleeps `gap_ms` between pulses, modelled by advancing `now` by
the gap. -/
def HapticManager.run_pattern (m : HapticManager) (now : Nat) (pat : HapticPattern)
    (p : HapticPulse) (reads : List PollRead) :
    HapticManager × Except HapticError Unit × Nat :=
  match pat with
  | .Single => m.pulse now p reads
  | .Double =>
    let gap := HapticPattern.Double.gap_ms
    let s1 := m.pulse now p reads
    let s2 := { s1.1 with last_pulse_ms := 0 }.pulse (now + gap) p reads
    (s2.1, .ok (), s1.2.2 + s2.2.2)
  | .Triple =>
    let gap := HapticPattern.Triple.gap_ms
    let s1 := m.pulse now p reads
    let s2 := { s1.1 with last_pulse_ms := 0 }.pulse (now + gap) p reads
    let s3 := { s2.1 with last_pulse_ms := 0 }.pulse (now + 2 * gap) p reads
    (s3.1, .ok (), s1.2.2 + s2.2.2 + s3.2.2)

/-- `HapticManager::emit` (hidpp.rs:1752-1847).  The MX4 path sends the
configured per-event waveform; the legacy fallback repeats an
intensity-50 pulse per the event's pattern, resetting the debounce
timestamp to 0 between repeats (the source sleeps `gap_ms` between them,
modelled by advancing `now` by the gap for each subsequent pulse).  Third
component counts device write attempts. -/
def HapticManager.emit (m : HapticManager) (now : Nat) (event : HapticEvent)
    (reads : List PollRead) : HapticManager × Except HapticError Unit × Nat :=
  if !m.enabled then (m, .ok (), 0)
  else
    match m.device with
    | some d =>
      if d.haptic_supported_any then
        if now - m.last_pulse_ms < m.debounce_ms then (m, .ok (), 0)
        else if d.mx4_haptic_supported then
          m.apply_send now (d.send_haptic_pattern (m.per_event.get event))
        else
          m.run_pattern now event.pattern ⟨50, event.base_profile.duration_ms⟩ reads
      else (m, .ok (), 0)
    | none => (m, .ok (), 0)

/-- `HapticManager::emit_slice_change` (hidpp.rs:1889-1943): re-entry
suppression, rapid-movement suppression (which updates the tracked slice),
then emission with timestamp updates.  Returns whether a haptic was
emitted. -/
def HapticManager.emit_slice_change (m : HapticManager) (now : Nat) (slice_index : Nat)
    (reads : List PollRead) : HapticManager × Bool :=
  if !m.enabled then (m, false)
  else
    let elapsed := now - m.last_slice_change_ms
    if m.last_slice_index = some slice_index ∧ elapsed < m.reentry_debounce_ms then
      (m, false)
    else if elapsed < m.slice_debounce_ms then
      ({ m with last_slice_index := some slice_index }, false)
    else
      let m1 := { m with last_slice_change_ms := now, last_slice_index := some slice_index }
      match m1.emit now .SliceChange reads with
      | (m2, .ok _, _w) => (m2, true)
      | (m2, .error _, _w) => (m2, false)

/-- `HapticManager::reset_slice_tracking` (hidpp.rs:1949). -/
def HapticManager.reset_slice_tracking (m : HapticManager) : HapticManager :=
  { m with last_slice_index := none, last_slice_change_ms := 0 }

/-- `HapticManager::dpi_supported` (hidpp.rs:1999): connects first if no
session exists (regardless of connection state or cooldown).  Third
component counts `open()` attempts. -/
def HapticManager.dpi_supported (m : HapticManager) (openResult : Option HidppDev) :
    HapticManager × Bool × Nat :=
  let (m1, att) := if m.device.isNone then ((m.connect openResult).1, 1) else (m, 0)
  (m1, (m1.device.map HidppDev.dpi_supported).getD false, att)

/-- `HapticManager::get_dpi` (hidpp.rs:2008). -/
def HapticManager.get_dpi (m : HapticManager) (openResult : Option HidppDev)
    (reads : List PollRead) : HapticManager × Option Nat × Nat :=
  let (m1, att) := if m.device.isNone then ((m.connect openResult).1, 1) else (m, 0)
  (m1, m1.device.bind (fun d => d.get_dpi reads), att)

/-- `HapticManager::set_dpi` (hidpp.rs:2017). -/
def HapticManager.set_dpi (m : HapticManager) (dpi : Nat) (openResult : Option HidppDev)
    (reads : List PollRead) : HapticManager × Except HapticError Unit × Nat :=
  let (m1, att) := if m.device.isNone then ((m.connect openResult).1, 1) else (m, 0)
  match m1.device with
  | some d => (m1, d.set_dpi dpi reads, att)
  | none => (m1, .error .DeviceNotFound, att)

/-- `HapticManager::get_dpi_list` (hidpp.rs:2032). -/
def HapticManager.get_dpi_list (m : HapticManager) (openResult : Option HidppDev)
    (reads : List PollRead) : HapticManager × Option (List Nat) × Nat :=
  let (m1, att) := if m.device.isNone then ((m.connect openResult).1, 1) else (m, 0)
  (m1, m1.device.bind (fun d => d.get_dpi_list reads), att)

/-- The fields of the manager that the haptic send path can change:
everything except `device`, `connection_state`, `last_disconnect_ms` and
`last_pulse_ms` is preserved. -/
def SliceFieldsEq (a b : HapticManager) : Prop :=
  a.enabled = b.enabled
  ∧ a.slice_debounce_ms = b.slice_debounce_ms
  ∧ a.reentry_debounce_ms = b.reentry_debounce_ms
  ∧ a.last_slice_change_ms = b.last_slice_change_ms
  ∧ a.last_slice_index = b.last_slice_index
  ∧ a.debounce_ms = b.debounce_ms
  ∧ a.per_event = b.per_event
  ∧ a.default_pattern = b.default_pattern

theorem SliceFieldsEq.refl (a : HapticManager) : SliceFieldsEq a a :=
  ⟨rfl, rfl, rfl, rfl, rfl, rfl, rfl, rfl⟩

theorem SliceFieldsEq.trans {a b c : HapticManager}
    (h1 : SliceFieldsEq a b) (h2 : SliceFieldsEq b c) : SliceFieldsEq a c := by
  obtain ⟨e1, e2, e3, e4, e5, e6, e7, e8⟩ := h1
  obtain ⟨f1, f2, f3, f4, f5, f6, f7, f8⟩ := h2
  exact ⟨e1.trans f1, e2.trans f2, e3.trans f3, e4.trans f4,
    e5.trans f5, e6.trans f6, e7.trans f7, e8.trans f8⟩

theorem apply_send_ok (m : HapticManager) (now : Nat)
    (r : Except HapticError Unit × Nat) : (m.apply_send now r).2.1 = .ok () := by
  rcases r with ⟨r, w⟩
  cases r with
  | ok v => rfl
  | error e => cases e <;> rfl

theorem apply_send_fields (m : HapticManager) (now : Nat)
    (r : Except HapticError Unit × Nat) :
    SliceFieldsEq (m.apply_send now r).1 m := by
  rcases r with ⟨r, w⟩
  cases r with
  | ok v => exact SliceFieldsEq.refl _
  | error e => cases e <;> exact SliceFieldsEq.refl _

theorem pulse_ok (m : HapticManager) (now : Nat) (p : HapticPulse)
    (reads : List PollRead) : (m.pulse now p reads).2.1 = .ok () := by
  unfold HapticManager.pulse
  repeat' split
  all_goals first
    | rfl
    | apply apply_send_ok

theorem pulse_fields (m : HapticManager) (now : Nat) (p : HapticPulse)
    (reads : List PollRead) : SliceFieldsEq (m.pulse now p reads).1 m := by
  unfold HapticManager.pulse
  repeat' split
  all_goals first
    | exact SliceFieldsEq.refl _
    | apply apply_send_fields

theorem lastPulse_slice_fields (m : HapticManager) (t : Nat) :
    SliceFieldsEq { m with last_pulse_ms := t } m :=
  ⟨rfl, rfl, rfl, rfl, rfl, rfl, rfl, rfl⟩

theorem run_pattern_ok (m : HapticManager) (now : Nat) (pat : HapticPattern)
    (p : HapticPulse) (reads : List PollRead) :
    (m.run_pattern now pat p reads).2.1 = .ok () := by
  cases pat with
  | Single => exact pulse_ok m now p reads
  | Double => rfl
  | Triple => rfl

theorem run_pattern_fields (m : HapticManager) (now : Nat) (pat : HapticPattern)
    (p : HapticPulse) (reads : List PollRead) :
    SliceFieldsEq (m.run_pattern now pat p reads).1 m := by
  cases pat with
  | Single => exact pulse_fields m now p reads
  | Double =>
    exact ((pulse_fields _ _ _ _).trans (lastPulse_slice_fields _ 0)).trans
      (pulse_fields m now p reads)
  | Triple =>
    exact (((pulse_fields _ _ _ _).trans (lastPulse_slice_fields _ 0)).trans
      ((pulse_fields _ _ _ _).trans (lastPulse_slice_fields _ 0))).trans
      (pulse_fields m now p reads)

theorem emit_ok (m : HapticManager) (now : Nat) (ev : HapticEvent)
    (reads : List PollRead) : (m.emit now ev reads).2.1 = .ok () := by
  unfold HapticManager.emit
  repeat' split
  all_goals first
    | rfl
    | apply apply_send_ok
    | apply run_pattern_ok

theorem emit_fields (m : HapticManager) (now : Nat) (ev : HapticEvent)
    (reads : List PollRead) : SliceFieldsEq (m.emit now ev reads).1 m := by
  unfold HapticManager.emit
  repeat' split
  all_goals first
    | exact SliceFieldsEq.refl _
    | apply apply_send_fields
    | apply run_pattern_fields

/-- C7: with the state Disconnected or Cooldown, `reconnect_if_needed`
called before the 5000 ms cooldown has elapsed returns false, moves
to/stays in Cooldown and makes no open attempt; called once the cooldown
has elapsed it makes exactly one open attempt; and when already Connected
it is a no-op returning true. -/
theorem reconnect_if_needed_spec (m : HapticManager) (now : Nat)
    (openResult : Option HidppDev) :
    ((m.connection_state = .Disconnected ∨ m.connection_state = .Cooldown) →
      now - m.last_disconnect_ms < RECONNECT_COOLDOWN_MS →
      m.reconnect_if_needed now openResult
        = ({ m with connection_state := .Cooldown }, false, 0))
    ∧ ((m.connection_state = .Disconnected ∨ m.connection_state = .Cooldown) →
      ¬(now - m.last_disconnect_ms < RECONNECT_COOLDOWN_MS) →
      (m.reconnect_if_needed now openResult).2.2 = 1)
    ∧ (m.connection_state = .Connected →
      m.reconnect_if_needed now openResult = (m, true, 0)) := by
  refine ⟨?_, ?_, ?_⟩
  · intro hst hlt
    have hguard : ¬(m.connection_state ≠ .Disconnected ∧ m.connection_state ≠ .Cooldown) := by
      rcases hst with h | h <;> simp [h]
    rw [HapticManager.reconnect_if_needed, if_neg hguard, if_pos hlt]
  · intro hst hge
    have hguard : ¬(m.connection_state ≠ .Disconnected ∧ m.connection_state ≠ .Cooldown) := by
      rcases hst with h | h <;> simp [h]
    rw [HapticManager.reconnect_if_needed, if_neg hguard, if_neg hge]
    rcases openResult with _ | d <;> rfl
  · intro hst
    have hguard : m.connection_state ≠ .Disconnected ∧ m.connection_state ≠ .Cooldown := by
      simp [hst]
    rw [HapticManager.reconnect_if_needed, if_pos hguard]
    simp [hst]

/-- A plain session for witness states. -/
def devEx : HidppDev :=
  ⟨0xFF, [], false, none, false, none, false, none, true⟩

/-- A manager that lost its device at t = 1000 ms. -/
def mgrDisc : HapticManager :=
  { HapticManager.new true with connection_state := .Disconnected, last_disconnect_ms := 1000 }

/-- A connected manager. -/
def mgrConn : HapticManager :=
  { HapticManager.new true with device := some devEx, connection_state := .Connected }

/-- Witness for C7: at 3000 ms (2000 ms after the failure) the reconnect is
refused with no open attempt; at 7000 ms exactly one open attempt is made;
a Connected manager is untouched. -/
theorem reconnect_if_needed_spec_witness :
    mgrDisc.reconnect_if_needed 3000 (some devEx)
        = ({ mgrDisc with connection_state := .Cooldown }, false, 0)
    ∧ (mgrDisc.reconnect_if_needed 7000 (some devEx)).2.2 = 1
    ∧ mgrConn.reconnect_if_needed 7000 (some devEx) = (mgrConn, true, 0) := by
  refine ⟨?_, ?_, ?_⟩
  · exact (reconnect_if_needed_spec mgrDisc 3000 (some devEx)).1 (Or.inl rfl) (by decide)
  · exact (reconnect_if_needed_spec mgrDisc 7000 (some devEx)).2.1 (Or.inl rfl) (by decide)
  · exact (reconnect_if_needed_spec mgrConn 7000 (some devEx)).2.2 rfl

/-- C10 (implicit): whenever no device session exists, every DPI operation
on the manager makes exactly one fresh `open()` attempt regardless of the
connection state — in particular a successful open during the Cooldown
window yields a Connected session — while `reconnect_if_needed` at the very
same moment would refuse to attempt an open. -/
theorem dpi_ops_bypass_cooldown (m : HapticManager) (openResult : Option HidppDev)
    (reads : List PollRead) (dpi now : Nat)
    (hdev : m.device = none) :
    (m.dpi_supported openResult).2.2 = 1
    ∧ (m.get_dpi openResult reads).2.2 = 1
    ∧ (m.set_dpi dpi openResult reads).2.2 = 1
    ∧ (m.get_dpi_list openResult reads).2.2 = 1
    ∧ (∀ d, openResult = some d →
        (m.get_dpi openResult reads).1.connection_state = .Connected
          ∧ (m.get_dpi openResult reads).1.device = some d)
    ∧ ((m.connection_state = .Disconnected ∨ m.connection_state = .Cooldown) →
        now - m.last_disconnect_ms < RECONNECT_COOLDOWN_MS →
        (m.reconnect_if_needed now openResult).2.2 = 0) := by
  refine ⟨?_, ?_, ?_, ?_, ?_, ?_⟩
  · rcases openResult with _ | d <;>
      simp [HapticManager.dpi_supported, HapticManager.connect, hdev]
  · rcases openResult with _ | d <;>
      simp [HapticManager.get_dpi, HapticManager.connect, hdev]
  · rcases openResult with _ | d <;>
      simp [HapticManager.set_dpi, HapticManager.connect, hdev]
  · rcases openResult with _ | d <;>
      simp [HapticManager.get_dpi_list, HapticManager.connect, hdev]
  · intro d hd
    subst hd
    simp [HapticManager.get_dpi, HapticManager.connect, hdev]
  · intro hst hlt
    have hguard : ¬(m.connection_state ≠ .Disconnected ∧ m.connection_state ≠ .Cooldown) := by
      rcases hst with h | h <;> simp [h]
    rw [HapticManager.reconnect_if_needed, if_neg hguard, if_pos hlt]

/-- A manager sitting in the reconnect cooldown window with no session. -/
def mgrCd : HapticManager :=
  { HapticManager.new true with connection_state := .Cooldown, last_disconnect_ms := 1000 }

/-- Witness for C10: at 1500 ms (inside the 5000 ms cooldown) a `get_dpi`
call opens a fresh session and lands in Connected, while
`reconnect_if_needed` makes no attempt. -/
theorem dpi_ops_bypass_cooldown_witness :
    (mgrCd.get_dpi (some devEx) []).2.2 = 1
    ∧ (mgrCd.get_dpi (some devEx) []).1.connection_state = .Connected
    ∧ (mgrCd.get_dpi (some devEx) []).1.device = some devEx
    ∧ (mgrCd.reconnect_if_needed 1500 (some devEx)).2.2 = 0 := by
  have h := dpi_ops_bypass_cooldown mgrCd (some devEx) [] 800 1500 rfl
  have h5 := h.2.2.2.2.1 devEx rfl
  exact ⟨h.2.1, h5.1, h5.2, h.2.2.2.2.2 (Or.inr rfl) (by decide)⟩

/-- C9 (amended): `set_dpi` fails with `NotSupported` when the DPI feature
was never discovered and with `CommunicationError` when the exchange
yields no reply; the getters `get_dpi`/`get_dpi_list` signal both the
undiscovered-feature case and a communication failure by the same `none`
(no error value distinguishes them); the manager delegates `set_dpi` to
the session when one exists and reports `DeviceNotFound` when none could
be opened. -/
theorem dpi_error_reporting (d : HidppDev) (fi dpi : Nat) (reads : List PollRead) :
    (d.dpi_feature_index = none →
      d.set_dpi dpi reads = .error .NotSupported
      ∧ d.get_dpi reads = none
      ∧ d.get_dpi_list reads = none)
    ∧ (d.dpi_feature_index = some fi →
       hidpp_request d.device_index fi 0x03 d.writeOk reads = none →
       d.set_dpi dpi reads = .error .CommunicationError)
    ∧ (d.dpi_feature_index = some fi →
       hidpp_request d.device_index fi 0x02 d.writeOk reads = none →
       d.get_dpi reads = none)
    ∧ (d.dpi_feature_index = some fi →
       hidpp_request d.device_index fi 0x01 d.writeOk reads = none →
       d.get_dpi_list reads = none)
    ∧ (∀ m : HapticManager, m.device = some d →
        (m.set_dpi dpi none reads).2.1 = d.set_dpi dpi reads)
    ∧ (∀ m : HapticManager, m.device = none →
        (m.set_dpi dpi none reads).2.1 = .error .DeviceNotFound) := by
  refine ⟨?_, ?_, ?_, ?_, ?_, ?_⟩
  · intro h
    refine ⟨?_, ?_, ?_⟩ <;>
      simp [HidppDev.set_dpi, HidppDev.get_dpi, HidppDev.get_dpi_list, h]
  · intro hfi hreq
    simp [HidppDev.set_dpi, hfi, hreq]
  · intro hfi hreq
    simp [HidppDev.get_dpi, hfi, hreq]
  · intro hfi hreq
    simp [HidppDev.get_dpi_list, hfi, hreq]
  · intro m hm
    simp [HapticManager.set_dpi, hm]
  · intro m hm
    simp [HapticManager.set_dpi, HapticManager.connect, hm]

/-- A session without the DPI feature. -/
def devNoDpi : HidppDev :=
  ⟨0xFF, [], false, none, false, none, false, none, true⟩

/-- A session with the DPI feature at index 5 (writes succeed; the channel
in the statements below never delivers a reply, so exchanges time out). -/
def devDpi : HidppDev :=
  ⟨0xFF, [], false, none, false, none, true, some 5, true⟩

/-- Counterexample to C9 as stated: the getters cannot fail with
`NotSupported` — on a device without the DPI feature and on a device whose
exchange times out they return the very same `none`, carrying no error
distinction at all; only the setter distinguishes (`NotSupported` vs
`CommunicationError`), and the manager-level setter without any session
fails with `DeviceNotFound`, a third error outside the claimed two. -/
theorem dpi_error_reporting_cex :
    devNoDpi.get_dpi [] = none
    ∧ devDpi.get_dpi [] = none
    ∧ devNoDpi.get_dpi [] = devDpi.get_dpi []
    ∧ devNoDpi.get_dpi_list [] = devDpi.get_dpi_list []
    ∧ devNoDpi.set_dpi 800 [] = .error .NotSupported
    ∧ devDpi.set_dpi 800 [] = .error .CommunicationError
    ∧ ((HapticManager.new true).set_dpi 800 none []).2.1 = .error .DeviceNotFound := by
  refine ⟨?_, ?_, ?_, ?_, ?_, ?_, ?_⟩ <;> rfl

/-- Witness for C9 (amended) at concrete sessions: `devNoDpi` (feature
undiscovered) and `devDpi` (feature at index 5, silent channel). -/
theorem dpi_error_reporting_witness :
    devNoDpi.set_dpi 400 [] = .error .NotSupported
    ∧ devNoDpi.get_dpi [] = none
    ∧ devNoDpi.get_dpi_list [] = none
    ∧ devDpi.set_dpi 400 [] = .error .CommunicationError
    ∧ devDpi.get_dpi [] = none := by
  have h1 := (dpi_error_reporting devNoDpi 5 400 []).1 rfl
  have h2 := (dpi_error_reporting devDpi 5 400 []).2.1 rfl (by decide)
  have h3 := (dpi_error_reporting devDpi 5 400 []).2.2.1 rfl (by decide)
  exact ⟨h1.1, h1.2.1, h1.2.2, h2, h3⟩

/-- C8 (amended): on the MX4 waveform path, an I/O failure while Connected
drops the session, sets Disconnected and records the failure timestamp,
and `emit` still returns `Ok`; on the legacy pulse path, write failures
are swallowed inside the request helper and leave the session and state
untouched; in every case the public `pulse`/`emit` call reports `Ok` to
its caller. -/
theorem haptic_failure_absorbed (m : HapticManager) (now : Nat) (event : HapticEvent)
    (reads : List PollRead) (d : HidppDev)
    (hen : m.enabled = true) (hdev : m.device = some d)
    (hmx : d.mx4_haptic_supported = true) (hw : d.writeOk = false)
    (hdb : ¬(now - m.last_pulse_ms < m.debounce_ms)) :
    ((m.emit now event reads).1.device = none
      ∧ (m.emit now event reads).1.connection_state = .Disconnected
      ∧ (m.emit now event reads).1.last_disconnect_ms = now
      ∧ (m.emit now event reads).2.1 = .ok ())
    ∧ (∀ (m2 : HapticManager) (t : Nat) (pu : HapticPulse) (rs : List PollRead),
        (m2.pulse t pu rs).2.1 = .ok ())
    ∧ (∀ (m2 : HapticManager) (t : Nat) (ev2 : HapticEvent) (rs : List PollRead),
        (m2.emit t ev2 rs).2.1 = .ok ()) := by
  have hsup : d.haptic_supported_any = true := by
    simp [HidppDev.haptic_supported_any, hmx]
  have h1 : m.emit now event reads = (m.handle_disconnect now, .ok (), 1) := by
    simp [HapticManager.emit, hen, hdev, hsup, hdb, hmx,
      HidppDev.send_haptic_pattern, hw, HapticManager.apply_send]
  refine ⟨?_, ?_, ?_⟩
  · rw [h1]
    exact ⟨rfl, rfl, rfl, rfl⟩
  · intro m2 t pu rs
    exact pulse_ok m2 t pu rs
  · intro m2 t ev2 rs
    exact emit_ok m2 t ev2 rs

/-- A Connected legacy-only session whose writes fail. -/
def devLegacyBad : HidppDev :=
  ⟨2, [], true, some 5, false, none, false, none, false⟩

/-- A Connected manager over `devLegacyBad`. -/
def mgrConnLegacyBad : HapticManager :=
  { HapticManager.new true with device := some devLegacyBad,
                                connection_state := .Connected }

/-- Counterexample to C8 as stated: on the legacy pulse path a device
write is attempted and its I/O failure is swallowed inside the request
helper — the call returns `Ok` but the controller stays Connected and
keeps the session instead of dropping it and recording the failure. -/
theorem haptic_failure_absorbed_cex :
    (mgrConnLegacyBad.pulse 1000 ⟨80, 25⟩ []).2.2 = 1
    ∧ (mgrConnLegacyBad.pulse 1000 ⟨80, 25⟩ []).2.1 = .ok ()
    ∧ (mgrConnLegacyBad.pulse 1000 ⟨80, 25⟩ []).1.connection_state = .Connected
    ∧ (mgrConnLegacyBad.pulse 1000 ⟨80, 25⟩ []).1.device = some devLegacyBad := by
  refine ⟨?_, ?_, ?_, ?_⟩ <;> rfl

/-- A Connected MX4-capable session whose writes fail (for the C8
witness). -/
def devMx4Bad : HidppDev :=
  ⟨2, [], false, none, true, some 11, false, none, false⟩

/-- A Connected manager over `devMx4Bad`. -/
def mgrConnMx4Bad : HapticManager :=
  { HapticManager.new true with device := some devMx4Bad,
                                connection_state := .Connected }

/-- Witness for C8 (amended): a failing MX4 waveform send at t = 1000
drops the session, marks Disconnected with timestamp 1000, and the call
still returns `Ok`. -/
theorem haptic_failure_absorbed_witness :
    (mgrConnMx4Bad.emit 1000 .MenuAppear []).1.device = none
    ∧ (mgrConnMx4Bad.emit 1000 .MenuAppear []).1.connection_state = .Disconnected
    ∧ (mgrConnMx4Bad.emit 1000 .MenuAppear []).1.last_disconnect_ms = 1000
    ∧ (mgrConnMx4Bad.emit 1000 .MenuAppear []).2.1 = .ok ()
    ∧ ((HapticManager.new true).pulse 7 ⟨80, 25⟩ []).2.1 = .ok () := by
  have h := haptic_failure_absorbed mgrConnMx4Bad 1000 .MenuAppear [] devMx4Bad
    rfl rfl rfl rfl (by decide)
  exact ⟨h.1.1, h.1.2.1, h.1.2.2.1, h.1.2.2.2, h.2.1 (HapticManager.new true) 7 ⟨80, 25⟩ []⟩

theorem esc_emits (m : HapticManager) (now slice : Nat) (reads : List PollRead)
    (hen : m.enabled = true)
    (hre : ¬(m.last_slice_index = some slice
              ∧ now - m.last_slice_change_ms < m.reentry_debounce_ms))
    (hsd : ¬(now - m.last_slice_change_ms < m.slice_debounce_ms)) :
    (m.emit_slice_change now slice reads).2 = true
    ∧ (m.emit_slice_change now slice reads).1
        = (({ m with last_slice_change_ms := now, last_slice_index := some slice }).emit now .SliceChange reads).1 := by
  rcases he : ({ m with last_slice_change_ms := now, last_slice_index := some slice }).emit now HapticEvent.SliceChange reads with ⟨m2, r, w⟩
  have hr : r = .ok () := by
    have hok := emit_ok { m with last_slice_change_ms := now, last_slice_index := some slice } now HapticEvent.SliceChange reads
    rw [he] at hok
    exact hok
  subst hr
  refine ⟨?_, ?_⟩ <;>
    (simp only [HapticManager.emit_slice_change]
     rw [if_neg (show ¬((!m.enabled) = true) by simp [hen]), if_neg hre, if_neg hsd, he])

theorem esc_reentry (m : HapticManager) (now slice : Nat) (reads : List PollRead)
    (hre : m.last_slice_index = some slice
            ∧ now - m.last_slice_change_ms < m.reentry_debounce_ms) :
    (m.emit_slice_change now slice reads).2 = false := by
  simp only [HapticManager.emit_slice_change]
  by_cases hen : (!m.enabled) = true
  · rw [if_pos hen]
  · rw [if_neg hen, if_pos hre]

theorem esc_rapid (m : HapticManager) (now slice : Nat) (reads : List PollRead)
    (hen : m.enabled = true)
    (hre : ¬(m.last_slice_index = some slice
              ∧ now - m.last_slice_change_ms < m.reentry_debounce_ms))
    (hsd : now - m.last_slice_change_ms < m.slice_debounce_ms) :
    m.emit_slice_change now slice reads = ({ m with last_slice_index := some slice }, false) := by
  simp only [HapticManager.emit_slice_change]
  rw [if_neg (show ¬((!m.enabled) = true) by simp [hen]), if_neg hre, if_pos hsd]

theorem esc_true_state (m : HapticManager) (now slice : Nat) (reads : List PollRead)
    (hb : (m.emit_slice_change now slice reads).2 = true) :
    m.enabled = true
    ∧ (m.emit_slice_change now slice reads).1.enabled = true
    ∧ (m.emit_slice_change now slice reads).1.last_slice_change_ms = now
    ∧ (m.emit_slice_change now slice reads).1.last_slice_index = some slice
    ∧ (m.emit_slice_change now slice reads).1.reentry_debounce_ms = m.reentry_debounce_ms
    ∧ (m.emit_slice_change now slice reads).1.slice_debounce_ms = m.slice_debounce_ms := by
  by_cases hen : m.enabled = true
  · by_cases hre : (m.last_slice_index = some slice
        ∧ now - m.last_slice_change_ms < m.reentry_debounce_ms)
    · rw [esc_reentry m now slice reads hre] at hb
      simp at hb
    · by_cases hsd : now - m.last_slice_change_ms < m.slice_debounce_ms
      · rw [esc_rapid m now slice reads hen hre hsd] at hb
        simp at hb
      · have he := esc_emits m now slice reads hen hre hsd
        obtain ⟨f1, f2, f3, f4, f5, _, _, _⟩ :=
          emit_fields { m with last_slice_change_ms := now, last_slice_index := some slice } now HapticEvent.SliceChange reads
        refine ⟨hen, ?_, ?_, ?_, ?_, ?_⟩ <;> rw [he.2]
        · exact f1.trans hen
        · exact f4
        · exact f5
        · exact f3
        · exact f2
  · exfalso
    have hef : m.enabled = false := by
      revert hen
      cases m.enabled <;> simp
    have : (m.emit_slice_change now slice reads).2 = false := by
      simp only [HapticManager.emit_slice_change]
      rw [if_pos (show (!m.enabled) = true by simp [hef])]
    rw [this] at hb
    simp at hb

/-- C5 (amended): with an enabled controller, a second
`emit_slice_change` for the same slice within `reentry_debounce_ms` of a
first emitting call never emits (so the two calls emit at most once); an
emitting call for slice 3 followed within `slice_debounce_ms` by a call
for slice 4 updates the tracked last slice to 4 yet emits zero times; and
the subsequent call for slice 4 emits once BOTH the `slice_debounce_ms`
window AND — because slice 4 is now the tracked last slice — the
`reentry_debounce_ms` window have elapsed since the last emission (inside
the re-entry window it is still suppressed, which corrects the claim's
third part). -/
theorem emit_slice_change_spec (m : HapticManager) (t1 t2 t3 : Nat)
    (reads : List PollRead) :
    (t2 - t1 < m.reentry_debounce_ms →
      ¬((m.emit_slice_change t1 3 reads).2 = true
        ∧ ((m.emit_slice_change t1 3 reads).1.emit_slice_change t2 3 reads).2 = true))
    ∧ ((m.emit_slice_change t1 3 reads).2 = true →
       t2 - t1 < m.slice_debounce_ms →
         ((m.emit_slice_change t1 3 reads).1.emit_slice_change t2 4 reads).2 = false
         ∧ ((m.emit_slice_change t1 3 reads).1.emit_slice_change t2 4 reads).1.last_slice_index
             = some 4)
    ∧ ((m.emit_slice_change t1 3 reads).2 = true →
       t2 - t1 < m.slice_debounce_ms →
       t3 - t1 ≥ m.slice_debounce_ms → t3 - t1 ≥ m.reentry_debounce_ms →
         (((m.emit_slice_change t1 3 reads).1.emit_slice_change t2 4 reads).1.emit_slice_change
             t3 4 reads).2 = true) := by
  refine ⟨?_, ?_, ?_⟩
  · intro hwin hcontra
    obtain ⟨hb1, hb2⟩ := hcontra
    obtain ⟨hen, he1, hlsc, hlsi, hree, hsld⟩ := esc_true_state m t1 3 reads hb1
    have hre2 : (m.emit_slice_change t1 3 reads).1.last_slice_index = some 3
        ∧ t2 - (m.emit_slice_change t1 3 reads).1.last_slice_change_ms
            < (m.emit_slice_change t1 3 reads).1.reentry_debounce_ms := by
      refine ⟨hlsi, ?_⟩
      rw [hlsc, hree]
      exact hwin
    rw [esc_reentry _ t2 3 reads hre2] at hb2
    simp at hb2
  · intro hb1 hwin
    obtain ⟨hen, he1, hlsc, hlsi, hree, hsld⟩ := esc_true_state m t1 3 reads hb1
    have hre2 : ¬((m.emit_slice_change t1 3 reads).1.last_slice_index = some 4
        ∧ t2 - (m.emit_slice_change t1 3 reads).1.last_slice_change_ms
            < (m.emit_slice_change t1 3 reads).1.reentry_debounce_ms) := by
      rw [hlsi]
      simp
    have hsd2 : t2 - (m.emit_slice_change t1 3 reads).1.last_slice_change_ms
        < (m.emit_slice_change t1 3 reads).1.slice_debounce_ms := by
      rw [hlsc, hsld]
      exact hwin
    rw [esc_rapid _ t2 4 reads he1 hre2 hsd2]
    exact ⟨rfl, rfl⟩
  · intro hb1 hwin hsd3 hre3
    obtain ⟨hen, he1, hlsc, hlsi, hree, hsld⟩ := esc_true_state m t1 3 reads hb1
    have hre2 : ¬((m.emit_slice_change t1 3 reads).1.last_slice_index = some 4
        ∧ t2 - (m.emit_slice_change t1 3 reads).1.last_slice_change_ms
            < (m.emit_slice_change t1 3 reads).1.reentry_debounce_ms) := by
      rw [hlsi]
      simp
    have hsd2 : t2 - (m.emit_slice_change t1 3 reads).1.last_slice_change_ms
        < (m.emit_slice_change t1 3 reads).1.slice_debounce_ms := by
      rw [hlsc, hsld]
      exact hwin
    rw [esc_rapid _ t2 4 reads he1 hre2 hsd2]
    set s1 := (m.emit_slice_change t1 3 reads).1 with hs1
    have hre4 : ¬(({ s1 with last_slice_index := some 4 }).last_slice_index = some 4
        ∧ t3 - ({ s1 with last_slice_index := some 4 }).last_slice_change_ms
            < ({ s1 with last_slice_index := some 4 }).reentry_debounce_ms) := by
      intro hcon
      have := hcon.2
      show False
      have hx : ({ s1 with last_slice_index := some 4 }).last_slice_change_ms
          = t1 := hlsc
      have hy : ({ s1 with last_slice_index := some 4 }).reentry_debounce_ms
          = m.reentry_debounce_ms := hree
      rw [hx, hy] at this
      omega
    have hsd4 : ¬(t3 - ({ s1 with last_slice_index := some 4 }).last_slice_change_ms
        < ({ s1 with last_slice_index := some 4 }).slice_debounce_ms) := by
      have hx : ({ s1 with last_slice_index := some 4 }).last_slice_change_ms
          = t1 := hlsc
      have hy : ({ s1 with last_slice_index := some 4 }).slice_debounce_ms
          = m.slice_debounce_ms := hsld
      rw [hx, hy]
      omega
    exact (esc_emits { s1 with last_slice_index := some 4 } t3 4 reads he1 hre4 hsd4).1

/-- Counterexample to C5 as stated (default windows: slice 20 ms,
re-entry 50 ms): `emit_slice_change 3` at 1000 ms emits; `emit_slice_change 4`
at 1010 ms is suppressed but updates the tracked slice to 4; the
subsequent `emit_slice_change 4` at 1030 ms — 30 ms after the last
emission, i.e. after the `slice_debounce_ms` window has elapsed — does NOT
emit, because the tracked slice is now 4 and 30 ms is still inside the
50 ms re-entry window. -/
theorem emit_slice_change_cex :
    ((HapticManager.new true).emit_slice_change 1000 3 []).2 = true
    ∧ (((HapticManager.new true).emit_slice_change 1000 3 []).1.emit_slice_change
        1010 4 []).2 = false
    ∧ (((HapticManager.new true).emit_slice_change 1000 3 []).1.emit_slice_change
        1010 4 []).1.last_slice_index = some 4
    ∧ 1030 - 1000 ≥ (HapticManager.new true).slice_debounce_ms
    ∧ ((((HapticManager.new true).emit_slice_change 1000 3 []).1.emit_slice_change
        1010 4 []).1.emit_slice_change 1030 4 []).2 = false := by
  refine ⟨?_, ?_, ?_, ?_, ?_⟩
  · rfl
  · rfl
  · rfl
  · decide
  · rfl

/-- Witness for C5 (amended) on the default manager: the three-call
scenario at 1000/1010/1060 ms (1060 clears both the 20 ms slice window and
the 50 ms re-entry window). -/
theorem emit_slice_change_spec_witness :
    ¬(((HapticManager.new true).emit_slice_change 1000 3 []).2 = true
      ∧ (((HapticManager.new true).emit_slice_change 1000 3 []).1.emit_slice_change
          1030 3 []).2 = true)
    ∧ (((HapticManager.new true).emit_slice_change 1000 3 []).1.emit_slice_change
        1010 4 []).2 = false
    ∧ (((HapticManager.new true).emit_slice_change 1000 3 []).1.emit_slice_change
        1010 4 []).1.last_slice_index = some 4
    ∧ ((((HapticManager.new true).emit_slice_change 1000 3 []).1.emit_slice_change
        1010 4 []).1.emit_slice_change 1060 4 []).2 = true := by
  have h := emit_slice_change_spec (HapticManager.new true) 1000 1030 1060 []
  have h2 := emit_slice_change_spec (HapticManager.new true) 1000 1010 1060 []
  have hb2 := h2.2.1 (by rfl) (by decide)
  exact ⟨h.1 (by decide), hb2.1, hb2.2, h2.2.2 (by rfl) (by decide) (by decide) (by decide)⟩

theorem pulse_write (m : HapticManager) (now : Nat) (p : HapticPulse)
    (reads : List PollRead) (d : HidppDev) (fi : Nat)
    (hen : m.enabled = true) (hdev : m.device = some d)
    (hsup : d.haptic_supported_any = true)
    (hfi : d.haptic_feature_index = some fi)
    (hdb : ¬(now - m.last_pulse_ms < m.debounce_ms)) :
    m.pulse now p reads = ({ m with last_pulse_ms := now }, .ok (), 1) := by
  simp [HapticManager.pulse, hen, hdev, hsup, hdb, HidppDev.send_haptic_pulse, hfi,
    HapticManager.apply_send]

theorem emit_debounced (m : HapticManager) (now : Nat) (ev : HapticEvent)
    (reads : List PollRead) (d : HidppDev)
    (hen : m.enabled = true) (hdev : m.device = some d)
    (hsup : d.haptic_supported_any = true)
    (hdb : now - m.last_pulse_ms < m.debounce_ms) :
    m.emit now ev reads = (m, .ok (), 0) := by
  simp [HapticManager.emit, hen, hdev, hsup, hdb]

theorem emit_mx4_write (m : HapticManager) (now : Nat) (ev : HapticEvent)
    (reads : List PollRead) (d : HidppDev)
    (hen : m.enabled = true) (hdev : m.device = some d)
    (hmx : d.mx4_haptic_supported = true) (hw : d.writeOk = true)
    (hdb : ¬(now - m.last_pulse_ms < m.debounce_ms)) :
    m.emit now ev reads = ({ m with last_pulse_ms := now }, .ok (), 1) := by
  have hsup : d.haptic_supported_any = true := by
    simp [HidppDev.haptic_supported_any, hmx]
  simp [HapticManager.emit, hen, hdev, hsup, hdb, hmx,
    HidppDev.send_haptic_pattern, hw, HapticManager.apply_send]

theorem run_pattern_writes (m : HapticManager) (now : Nat) (pat : HapticPattern)
    (p : HapticPulse) (reads : List PollRead) (d : HidppDev) (fi : Nat)
    (hen : m.enabled = true) (hdev : m.device = some d)
    (hsup : d.haptic_supported_any = true)
    (hfi : d.haptic_feature_index = some fi)
    (hdb : ¬(now - m.last_pulse_ms < m.debounce_ms)) :
    ∃ lp, lp ≥ now
      ∧ m.run_pattern now pat p reads
          = ({ m with last_pulse_ms := lp }, .ok (), pat.pulse_count) := by
  have hdeb_le : m.debounce_ms ≤ now := by omega
  cases pat with
  | Single =>
    exact ⟨now, Nat.le_refl _, pulse_write m now p reads d fi hen hdev hsup hfi hdb⟩
  | Double =>
    refine ⟨now + 30, by omega, ?_⟩
    have hp1 := pulse_write m now p reads d fi hen hdev hsup hfi hdb
    have hp2 := pulse_write { m with last_pulse_ms := 0 }
      (now + HapticPattern.Double.gap_ms) p reads d fi hen hdev hsup hfi
      (by show ¬(now + 30 - 0 < m.debounce_ms); omega)
    simp only [HapticManager.run_pattern, hp1]
    simp only [hp2]
    rfl
  | Triple =>
    refine ⟨now + 2 * 20, by omega, ?_⟩
    have hp1 := pulse_write m now p reads d fi hen hdev hsup hfi hdb
    have hp2 := pulse_write { m with last_pulse_ms := 0 }
      (now + HapticPattern.Triple.gap_ms) p reads d fi hen hdev hsup hfi
      (by show ¬(now + 20 - 0 < m.debounce_ms); omega)
    have hp3 := pulse_write { m with last_pulse_ms := 0 }
      (now + 2 * HapticPattern.Triple.gap_ms) p reads d fi hen hdev hsup hfi
      (by show ¬(now + 2 * 20 - 0 < m.debounce_ms); omega)
    simp only [HapticManager.run_pattern, hp1]
    simp only [hp2]
    simp only [hp3]
    rfl

theorem emit_legacy_writes (m : HapticManager) (now : Nat) (ev : HapticEvent)
    (reads : List PollRead) (d : HidppDev) (fi : Nat)
    (hen : m.enabled = true) (hdev : m.device = some d)
    (hmx : d.mx4_haptic_supported = false) (hleg : d.haptic_supported = true)
    (hfi : d.haptic_feature_index = some fi)
    (hdb : ¬(now - m.last_pulse_ms < m.debounce_ms)) :
    ∃ lp, lp ≥ now
      ∧ m.emit now ev reads
          = ({ m with last_pulse_ms := lp }, .ok (), ev.pattern.pulse_count) := by
  have hsup : d.haptic_supported_any = true := by
    simp [HidppDev.haptic_supported_any, hleg]
  obtain ⟨lp, hlp, hrp⟩ := run_pattern_writes m now ev.pattern
    ⟨50, ev.base_profile.duration_ms⟩ reads d fi hen hdev hsup hfi hdb
  refine ⟨lp, hlp, ?_⟩
  rw [← hrp]
  simp [HapticManager.emit, hen, hdev, hsup, hdb, hmx]

/-- C6 (amended): for an enabled controller over a haptic-capable device
with working writes, two `emit` calls for the same event within
`debounce_ms` of each other write only from the first call — exactly one
device write on the MX4 waveform path, and `pattern.pulse_count` writes
(1 single / 2 double / 3 triple) on the legacy fallback — while the
second call performs zero writes (suppressed by the debounce against the
last successful pulse). -/
theorem emit_debounce_spec (m : HapticManager) (t1 t2 : Nat) (event : HapticEvent)
    (reads : List PollRead) (d : HidppDev) (fi : Nat)
    (hen : m.enabled = true) (hdev : m.device = some d) (hw : d.writeOk = true)
    (hdb1 : ¬(t1 - m.last_pulse_ms < m.debounce_ms))
    (hdb2 : t2 - t1 < m.debounce_ms) :
    (d.mx4_haptic_supported = true →
      (m.emit t1 event reads).2.2 = 1
      ∧ ((m.emit t1 event reads).1.emit t2 event reads).2.2 = 0)
    ∧ (d.mx4_haptic_supported = false → d.haptic_supported = true →
       d.haptic_feature_index = some fi →
      (m.emit t1 event reads).2.2 = event.pattern.pulse_count
      ∧ ((m.emit t1 event reads).1.emit t2 event reads).2.2 = 0) := by
  constructor
  · intro hmx
    have hsup : d.haptic_supported_any = true := by
      simp [HidppDev.haptic_supported_any, hmx]
    have h1 := emit_mx4_write m t1 event reads d hen hdev hmx hw hdb1
    rw [h1]
    refine ⟨rfl, ?_⟩
    have h2 := emit_debounced { m with last_pulse_ms := t1 } t2 event reads d
      hen hdev hsup (by show t2 - t1 < m.debounce_ms; exact hdb2)
    rw [h2]
  · intro hmx hleg hfi
    have hsup : d.haptic_supported_any = true := by
      simp [HidppDev.haptic_supported_any, hleg]
    obtain ⟨lp, hlp, h1⟩ := emit_legacy_writes m t1 event reads d fi
      hen hdev hmx hleg hfi hdb1
    rw [h1]
    refine ⟨rfl, ?_⟩
    have h2 := emit_debounced { m with last_pulse_ms := lp } t2 event reads d
      hen hdev hsup (by show t2 - lp < m.debounce_ms; omega)
    rw [h2]

/-- A Connected legacy-only session with working writes. -/
def devLegacy : HidppDev :=
  ⟨2, [], true, some 5, false, none, false, none, true⟩

/-- A Connected manager over `devLegacy`. -/
def mgrLegacy : HapticManager :=
  { HapticManager.new true with device := some devLegacy,
                                connection_state := .Connected }

/-- Counterexample to C6 as stated: on a legacy-only device, an emit of
SelectionConfirm (a double pulse) performs TWO device writes; the second
emit 5 ms later is suppressed, so the two calls within `debounce_ms`
together perform two writes, not exactly one. -/
theorem emit_debounce_cex :
    (mgrLegacy.emit 1000 .SelectionConfirm []).2.2 = 2
    ∧ ((mgrLegacy.emit 1000 .SelectionConfirm []).1.emit 1005 .SelectionConfirm []).2.2 = 0
    ∧ (mgrLegacy.emit 1000 .SelectionConfirm []).2.2
        + ((mgrLegacy.emit 1000 .SelectionConfirm []).1.emit 1005 .SelectionConfirm []).2.2
        ≠ 1 := by
  refine ⟨?_, ?_, ?_⟩ <;> first
    | rfl
    | decide

/-- A Connected MX4-capable session with working writes. -/
def devMx4 : HidppDev :=
  ⟨2, [], false, none, true, some 11, false, none, true⟩

/-- A Connected manager over `devMx4`. -/
def mgrMx4 : HapticManager :=
  { HapticManager.new true with device := some devMx4,
                                connection_state := .Connected }

/-- Witness for C6 (amended): on the MX4 path two SliceChange emits at
1000/1005 ms write exactly once; on the legacy path two SelectionConfirm
emits at 1000/1005 ms write twice then zero times. -/
theorem emit_debounce_spec_witness :
    ((mgrMx4.emit 1000 .SliceChange []).2.2 = 1
      ∧ ((mgrMx4.emit 1000 .SliceChange []).1.emit 1005 .SliceChange []).2.2 = 0)
    ∧ ((mgrLegacy.emit 1000 .SelectionConfirm []).2.2
          = HapticEvent.SelectionConfirm.pattern.pulse_count
      ∧ ((mgrLegacy.emit 1000 .SelectionConfirm []).1.emit 1005
          .SelectionConfirm []).2.2 = 0) := by
  constructor
  · exact (emit_debounce_spec mgrMx4 1000 1005 .SliceChange [] devMx4 11
      rfl rfl rfl (by decide) (by decide)).1 rfl
  · exact (emit_debounce_spec mgrLegacy 1000 1005 .SelectionConfirm [] devLegacy 5
      rfl rfl rfl (by decide) (by decide)).2 rfl rfl rfl

end JuhRadial
